import Mathlib

/-!
Shallow embedding of the polaris Instagram publishing, scheduling and lead
automation core (publisher.py, scheduler_service.py, lead_service.py,
messenger.py, models) together with proofs settling the specification claims.

Remote calls are modelled by an `Oracle` giving the response to the k-th
call; each embedded operation threads a call counter `k` and appends the
requests it issues to a trace `tr`, so a theorem can speak about which
remote calls were made and in which order.  Python exceptions become
`Except Exc` results.
-/

/-- Classified exceptions raised by the client / publisher layer. -/
inductive Exc
| transientFailure (msg : String)
| clientError (msg : String)
| publishError (msg : String)
| valueError (msg : String)
deriving DecidableEq, Repr

/-- A remote request issued by the publisher (the trace alphabet). -/
inductive Req
| createMedia (imageUrl caption : String)
| createVideo (videoUrl caption mediaType : String)
| createCarouselItem (imageUrl : String)
| createCarousel (children : List String) (caption : String)
| createStory (imageUrl : String)
| createStoryVideo (videoUrl : String)
| checkStatus (containerId : String)
| publishMedia (containerId : String)
deriving DecidableEq, Repr

/-- The container status dict returned by `check_container_status`:
`status_code` and `status` fields, either possibly missing. -/
structure ContainerStatus where
  status_code : Option String
  status : Option String
deriving DecidableEq, Repr

/-- Scripted remote responses: `resp k` is the id returned by the k-th call
when it is a create/publish call, `stat k` the status dict when it is a
status check; an `Except.error` models the client raising. -/
structure Oracle where
  resp : Nat → Except Exc String
  stat : Nat → Except Exc ContainerStatus

/-- Result of running an embedded operation: outcome, next call index and
the full request trace so far. -/
structure StepResult (α : Type) where
  res : Except Exc α
  k : Nat
  tr : List Req
deriving Repr

/-- `InstagramPublisher.CONTAINER_CHECK_INTERVAL` (seconds). -/
def CONTAINER_CHECK_INTERVAL : Nat := 5

/-- `InstagramPublisher.CONTAINER_MAX_WAIT` (seconds). -/
def CONTAINER_MAX_WAIT : Nat := 300

/-- One id-returning remote call (create container / publish). -/
def callId (o : Oracle) (r : Req) (k : Nat) (tr : List Req) : StepResult String :=
  ⟨o.resp k, k + 1, tr ++ [r]⟩

/-- `InstagramPublisher._wait_for_container`: poll `check_container_status`
while `elapsed < max_wait`; `FINISHED` returns, `ERROR` raises with the
remote status text, anything else (including `EXPIRED`, `IN_PROGRESS` and
unknown codes) sleeps 5 seconds and polls again; once the budget is spent
a timeout `PublishError` is raised. -/
def wait_for_container (o : Oracle) (cid : String) (max_wait : Nat)
    (elapsed : Nat) (k : Nat) (tr : List Req) : StepResult Unit :=
  if elapsed < max_wait then
    match o.stat k with
    | .error e => ⟨.error e, k + 1, tr ++ [Req.checkStatus cid]⟩
    | .ok st =>
      if st.status_code = some "FINISHED" then
        ⟨.ok (), k + 1, tr ++ [Req.checkStatus cid]⟩
      else if st.status_code = some "ERROR" then
        ⟨.error (.publishError ("Container failed: " ++ st.status.getD "Unknown error")),
          k + 1, tr ++ [Req.checkStatus cid]⟩
      else
        wait_for_container o cid max_wait (elapsed + CONTAINER_CHECK_INTERVAL)
          (k + 1) (tr ++ [Req.checkStatus cid])
  else
    ⟨.error (.publishError ("Container timed out after " ++ toString max_wait ++ " seconds")),
      k, tr⟩
termination_by max_wait - elapsed
decreasing_by simp [CONTAINER_CHECK_INTERVAL]; omega

/-- One un-retried attempt of `publish_image`: create the image container,
wait for it (default 300 s budget), publish it. -/
def publish_image_once (o : Oracle) (image_url caption : String)
    (k : Nat) (tr : List Req) : StepResult String :=
  let c := callId o (Req.createMedia image_url caption) k tr
  match c.res with
  | .error e => ⟨.error e, c.k, c.tr⟩
  | .ok cid =>
    let w := wait_for_container o cid CONTAINER_MAX_WAIT 0 c.k c.tr
    match w.res with
    | .error e => ⟨.error e, w.k, w.tr⟩
    | .ok _ => callId o (Req.publishMedia cid) w.k w.tr

/-- One un-retried attempt of `publish_video` (600 s wait budget). -/
def publish_video_once (o : Oracle) (video_url caption media_type : String)
    (k : Nat) (tr : List Req) : StepResult String :=
  let c := callId o (Req.createVideo video_url caption media_type) k tr
  match c.res with
  | .error e => ⟨.error e, c.k, c.tr⟩
  | .ok cid =>
    let w := wait_for_container o cid 600 0 c.k c.tr
    match w.res with
    | .error e => ⟨.error e, w.k, w.tr⟩
    | .ok _ => callId o (Req.publishMedia cid) w.k w.tr

/-- One un-retried attempt of `publish_story` (image story, 300 s budget). -/
def publish_story_once (o : Oracle) (image_url : String)
    (k : Nat) (tr : List Req) : StepResult String :=
  let c := callId o (Req.createStory image_url) k tr
  match c.res with
  | .error e => ⟨.error e, c.k, c.tr⟩
  | .ok cid =>
    let w := wait_for_container o cid CONTAINER_MAX_WAIT 0 c.k c.tr
    match w.res with
    | .error e => ⟨.error e, w.k, w.tr⟩
    | .ok _ => callId o (Req.publishMedia cid) w.k w.tr

/-- One un-retried attempt of `publish_story_video` (600 s wait budget). -/
def publish_story_video_once (o : Oracle) (video_url : String)
    (k : Nat) (tr : List Req) : StepResult String :=
  let c := callId o (Req.createStoryVideo video_url) k tr
  match c.res with
  | .error e => ⟨.error e, c.k, c.tr⟩
  | .ok cid =>
    let w := wait_for_container o cid 600 0 c.k c.tr
    match w.res with
    | .error e => ⟨.error e, w.k, w.tr⟩
    | .ok _ => callId o (Req.publishMedia cid) w.k w.tr

/-- The tenacity decorator `retry(stop=stop_after_attempt(3), reraise=True)`
with its default retry condition: re-run the whole wrapped body on ANY
exception, at most 3 attempts, reraising the last exception. -/
def retry3 (f : Nat → List Req → StepResult α) (k : Nat) (tr : List Req) : StepResult α :=
  match (f k tr).res with
  | .ok _ => f k tr
  | .error _ =>
    match (f (f k tr).k (f k tr).tr).res with
    | .ok _ => f (f k tr).k (f k tr).tr
    | .error _ => f (f (f k tr).k (f k tr).tr).k (f (f k tr).k (f k tr).tr).tr

/-- `InstagramPublisher.publish_image` (decorated with `retry3`). -/
def publish_image (o : Oracle) (image_url caption : String)
    (k : Nat) (tr : List Req) : StepResult String :=
  retry3 (publish_image_once o image_url caption) k tr

/-- `InstagramPublisher.publish_video` (decorated with `retry3`). -/
def publish_video (o : Oracle) (video_url caption media_type : String)
    (k : Nat) (tr : List Req) : StepResult String :=
  retry3 (publish_video_once o video_url caption media_type) k tr

/-- `InstagramPublisher.publish_story` (decorated with `retry3`). -/
def publish_story (o : Oracle) (image_url : String)
    (k : Nat) (tr : List Req) : StepResult String :=
  retry3 (publish_story_once o image_url) k tr

/-- `InstagramPublisher.publish_story_video` (decorated with `retry3`). -/
def publish_story_video (o : Oracle) (video_url : String)
    (k : Nat) (tr : List Req) : StepResult String :=
  retry3 (publish_story_video_once o video_url) k tr

/-- The list comprehension creating one carousel item container per URL;
a raise aborts the remaining creates. -/
def create_items (o : Oracle) (urls : List String)
    (k : Nat) (tr : List Req) : StepResult (List String) :=
  match urls with
  | [] => ⟨.ok [], k, tr⟩
  | u :: rest =>
    let c := callId o (Req.createCarouselItem u) k tr
    match c.res with
    | .error e => ⟨.error e, c.k, c.tr⟩
    | .ok cid =>
      let r := create_items o rest c.k c.tr
      match r.res with
      | .error e => ⟨.error e, r.k, r.tr⟩
      | .ok ids => ⟨.ok (cid :: ids), r.k, r.tr⟩

/-- The loop waiting for each carousel item container in turn. -/
def wait_items (o : Oracle) (ids : List String)
    (k : Nat) (tr : List Req) : StepResult Unit :=
  match ids with
  | [] => ⟨.ok (), k, tr⟩
  | i :: rest =>
    let w := wait_for_container o i CONTAINER_MAX_WAIT 0 k tr
    match w.res with
    | .error e => ⟨.error e, w.k, w.tr⟩
    | .ok _ => wait_items o rest w.k w.tr

/-- `InstagramPublisher.publish_carousel`: N item creates, N item waits,
one aggregating create, one wait, one publish.  NOT decorated with any
retry in the source. -/
def publish_carousel (o : Oracle) (image_urls : List String) (caption : String)
    (k : Nat) (tr : List Req) : StepResult String :=
  let items := create_items o image_urls k tr
  match items.res with
  | .error e => ⟨.error e, items.k, items.tr⟩
  | .ok item_ids =>
    let ws := wait_items o item_ids items.k items.tr
    match ws.res with
    | .error e => ⟨.error e, ws.k, ws.tr⟩
    | .ok _ =>
      let c := callId o (Req.createCarousel item_ids caption) ws.k ws.tr
      match c.res with
      | .error e => ⟨.error e, c.k, c.tr⟩
      | .ok cid =>
        let w := wait_for_container o cid CONTAINER_MAX_WAIT 0 c.k c.tr
        match w.res with
        | .error e => ⟨.error e, w.k, w.tr⟩
        | .ok _ => callId o (Req.publishMedia cid) w.k w.tr

/-- `ContentType` enum from `models/content.py` (IMAGE, VIDEO, CAROUSEL,
REEL — the enum has no story members). -/
inductive ContentType
| IMAGE
| VIDEO
| CAROUSEL
| REEL
deriving DecidableEq, Repr

/-- The fields of a `Content` row that `publish_content` reads.  `media_type`
is an `Option` because a transient Python instance can carry `None` before
the column default applies; `media_url` is a nullable column. -/
structure Content where
  caption : String
  hashtags : Option String
  media_url : Option String
  media_type : Option ContentType
deriving DecidableEq, Repr

/-- `Content.full_caption`: caption with hashtags appended when the
hashtags field is truthy. -/
def full_caption (c : Content) : String :=
  match c.hashtags with
  | some h => if h = "" then c.caption else c.caption ++ "\n\n" ++ h
  | none => c.caption

/-- `str.split(sep)` for a one-character separator, at the character
level: splits on every occurrence of `sep`. -/
def splitOnChar (sep : Char) : List Char → List (List Char)
  | [] => [[]]
  | c :: rest =>
    match splitOnChar sep rest with
    | [] => if c = sep then [[], []] else [[c]]
    | h :: t => if c = sep then [] :: h :: t else (c :: h) :: t

/-- Python `str.strip()`: drop leading and trailing whitespace. -/
def trimChars (cs : List Char) : List Char :=
  ((cs.dropWhile Char.isWhitespace).reverse.dropWhile Char.isWhitespace).reverse

/-- The carousel slide split `[u.strip() for u in media_url.split("|") if u.strip()]`. -/
def carousel_urls (media_url : String) : List String :=
  ((splitOnChar (Char.ofNat 124) media_url.toList).map
    (fun cs => String.mk (trimChars cs))).filter (fun u => u ≠ "")

/-- `InstagramPublisher.publish_content`: validate the media URL, then
dispatch on the content's media-type tag; unsupported or unset tags raise
a local `PublishError` before any remote call. -/
def publish_content (o : Oracle) (c : Content) (k : Nat) (tr : List Req) : StepResult String :=
  match c.media_url with
  | none => ⟨.error (.publishError "Content must have a media URL"), k, tr⟩
  | some u =>
    if u = "" then ⟨.error (.publishError "Content must have a media URL"), k, tr⟩
    else
      match c.media_type with
      | some ContentType.IMAGE => publish_image o u (full_caption c) k tr
      | some ContentType.VIDEO => publish_video o u (full_caption c) "REELS" k tr
      | some ContentType.REEL => publish_video o u (full_caption c) "REELS" k tr
      | some ContentType.CAROUSEL =>
        let urls := carousel_urls u
        if urls = [] then
          ⟨.error (.publishError "Carousel content has no image URLs in media_url"), k, tr⟩
        else publish_carousel o urls (full_caption c) k tr
      | none => ⟨.error (.publishError "Unsupported media type: None"), k, tr⟩

/-- `ScheduleStatus` enum from `models/schedule.py`. -/
inductive ScheduleStatus
| PENDING
| PROCESSING
| PUBLISHED
| FAILED
| CANCELLED
deriving DecidableEq, Repr

/-- `ContentStatus` enum from `models/content.py`. -/
inductive ContentStatus
| DRAFT
| READY
| PUBLISHED
| FAILED
deriving DecidableEq, Repr

/-- A wall-clock instant, as hours-since-epoch plus the minute-of-hour
field that `datetime.replace(minute=...)` manipulates.  (Seconds and
smaller fields are unchanged by the code being modelled.) -/
structure DT where
  hourBase : Nat
  minute : Nat
deriving DecidableEq, Repr

/-- The instant as an absolute number of minutes. -/
def DT.toMinutes (t : DT) : Nat := 60 * t.hourBase + t.minute

/-- `datetime.replace(minute=m)`: keeps every other field and validates
`0 <= m <= 59`, raising `ValueError` otherwise. -/
def DT.replaceMinute (t : DT) (m : Nat) : Except Exc DT :=
  if m ≤ 59 then .ok { t with minute := m }
  else .error (.valueError "minute must be in 0..59")

/-- The `ScheduledPost` columns the scheduler callback touches. -/
structure SPost where
  status : ScheduleStatus
  retry_count : Nat
  max_retries : Nat
  error_message : Option String
  published_at : Option DT
deriving DecidableEq, Repr

/-- The `Content` columns the scheduler callback touches. -/
structure ContentRow where
  status : ContentStatus
  instagram_media_id : Option String
deriving DecidableEq, Repr

/-- Committed database state seen by one scheduler callback: the scheduled
post (None models a missing row), its content row, and the owning
account's flags. -/
structure SchedDB where
  post : Option SPost
  content : ContentRow
  account_active : Bool
  token_expired : Bool
deriving DecidableEq, Repr

/-- `ScheduledPost.can_retry`: retry budget left and status is FAILED. -/
def can_retry (p : SPost) : Bool :=
  decide (p.retry_count < p.max_retries) && decide (p.status = ScheduleStatus.FAILED)

/-- Externally visible scheduler-callback effects. -/
inductive SAction
| publishAttempt
| scheduleJob (t : DT)
deriving DecidableEq, Repr

/-- Whether the callback returned normally or let an exception escape to
APScheduler. -/
inductive CallbackOutcome
| returned
| raised (e : Exc)
deriving DecidableEq, Repr

/-- The `except Exception` branch of `_publish_scheduled_post`, entered
with the post committed as PROCESSING: re-read the post, mark it FAILED
with the error text and a bumped retry count, and when `can_retry` holds
compute the backoff time with `datetime.replace(minute=minute + 5*rc)` —
a `ValueError` there escapes before any commit, discarding the in-memory
mutations; otherwise commit either the PENDING re-mark plus a new job, or
the terminal FAILED state. -/
def handle_failure (db1 : SchedDB) (msg : String) (now : DT) (acts : List SAction) :
    SchedDB × List SAction × CallbackOutcome :=
  match db1.post with
  | none => (db1, acts, .returned)
  | some p =>
    let p1 : SPost :=
      { p with status := ScheduleStatus.FAILED,
               error_message := some msg,
               retry_count := p.retry_count + 1 }
    if can_retry p1 then
      match now.replaceMinute (now.minute + 5 * p1.retry_count) with
      | .error e => (db1, acts, .raised e)
      | .ok retry_time =>
        ({ db1 with post := some { p1 with status := ScheduleStatus.PENDING } },
          acts ++ [SAction.scheduleJob retry_time], .returned)
    else
      ({ db1 with post := some p1 }, acts, .returned)

/-- `SchedulerService._publish_scheduled_post`: reload the post; missing or
non-PENDING rows are a committed no-op; otherwise commit PROCESSING, check
the account guards, run the publish (its outcome scripted by `pub`), and
either commit the PUBLISHED updates or fall into `handle_failure`. -/
def publish_scheduled_post (db : SchedDB) (pub : Except String String) (now : DT) :
    SchedDB × List SAction × CallbackOutcome :=
  match db.post with
  | none => (db, [], .returned)
  | some post =>
    if post.status ≠ ScheduleStatus.PENDING then (db, [], .returned)
    else
      let db1 : SchedDB :=
        { db with post := some { post with status := ScheduleStatus.PROCESSING } }
      if db.account_active = false then
        handle_failure db1 "Account is not active" now []
      else if db.token_expired = true then
        handle_failure db1 "Account token is expired" now []
      else
        match pub with
        | .ok media_id =>
          let post2 : SPost :=
            { post with status := ScheduleStatus.PUBLISHED, published_at := some now }
          let content2 : ContentRow :=
            { status := ContentStatus.PUBLISHED, instagram_media_id := some media_id }
          ({ db1 with post := some post2, content := content2 },
            [SAction.publishAttempt], .returned)
        | .error msg => handle_failure db1 msg now [SAction.publishAttempt]

/-- `LeadStatus` enum from `models/lead.py`. -/
inductive LeadStatus
| NEW
| CONTACTED
| REPLIED
| QUALIFIED
| CLOSED
deriving DecidableEq, Repr

/-- One entry of a lead's conversation history (role/message/timestamp). -/
structure HistEntry where
  role : String
  message : String
  timestamp : String
deriving DecidableEq, Repr

/-- The `Lead` columns the automation engine reads or writes. -/
structure LeadRec where
  comment_id : String
  commenter_ig_user_id : String
  commenter_username : String
  conversation_history : List HistEntry
  dm_sent : Bool
  status : LeadStatus
deriving DecidableEq, Repr

/-- A comment as returned by `InstagramMessenger.get_post_comments`, plus
its server-side creation time `ts` used by the remote `since` filter. -/
structure Comment where
  id : String
  text : String
  username : String
  ig_user_id : String
  ts : Nat
deriving DecidableEq, Repr

/-- The `CommentTrigger` columns `_process_trigger` reads. -/
structure Trigger where
  keyword : String
  initial_message : String
  last_polled_at : Option Nat
deriving DecidableEq, Repr

/-- `InstagramMessenger.get_post_comments`: any exception from the request
is caught and an empty list is returned instead of raising. -/
def get_post_comments (fetch : Except String (List Comment)) : List Comment :=
  match fetch with
  | .error _ => []
  | .ok l => l

/-- Modelled from the spec (external interface, `GET post-comments(media_id,
since?)`): the remote platform returns the comments on the post created at
or after the Unix `since` cursor, all of them when no cursor is sent. -/
def server_comments (all : List Comment) (since : Option Nat) : List Comment :=
  match since with
  | none => all
  | some s => all.filter (fun c => s ≤ c.ts)

/-- Python `keyword.lower() in text.lower()`: case-insensitive substring
containment, with lowercasing done character by character. -/
def str_contains (hay needle : String) : Bool :=
  decide ((needle.toList.map Char.toLower) <:+: (hay.toList.map Char.toLower))

/-- Side-effecting calls issued by the lead engine. -/
inductive LAction
| privateReply (comment_id message : String)
| sendMessage (recipient_id text : String)
deriving DecidableEq, Repr

/-- The body of `_process_trigger`'s per-comment loop: keyword filter,
empty-id guard, dedup lookup in the Lead table BEFORE the side-effecting
private reply, send (skipping the comment on failure), then the atomic
lead-creation commit.  State: leads so far, actions so far, new-lead count. -/
def process_comment (sendOk : String → Bool) (t : Trigger) (nowIso : String)
    (st : List LeadRec × List LAction × Nat) (c : Comment) :
    List LeadRec × List LAction × Nat :=
  if ¬ str_contains c.text t.keyword then st
  else if c.id = "" then st
  else if st.1.any (fun l => l.comment_id = c.id) then st
  else if sendOk c.id = false then
    (st.1, st.2.1 ++ [LAction.privateReply c.id t.initial_message], st.2.2)
  else
    (st.1 ++
      [{ comment_id := c.id
         commenter_ig_user_id := c.ig_user_id
         commenter_username := c.username
         conversation_history :=
           [{ role := "assistant", message := t.initial_message, timestamp := nowIso }]
         dm_sent := true
         status := LeadStatus.CONTACTED }],
      st.2.1 ++ [LAction.privateReply c.id t.initial_message], st.2.2 + 1)

/-- Result of one `_process_trigger` run: the committed leads, the
trigger's advanced cursor, the remote sends, and the return value. -/
structure TriggerPollResult where
  leads : List LeadRec
  cursor : Option Nat
  acts : List LAction
  new_leads : Nat
deriving DecidableEq, Repr

/-- `LeadService._process_trigger`: fetch the comments (an empty list when
the fetch failed), run the per-comment loop over the batch, then advance
the polling cursor to now unconditionally. -/
def process_trigger (sendOk : String → Bool) (t : Trigger)
    (fetch : Except String (List Comment)) (leads : List LeadRec)
    (now : Nat) (nowIso : String) : TriggerPollResult :=
  let comments := get_post_comments fetch
  let init : List LeadRec × List LAction × Nat := (leads, [], 0)
  let s := comments.foldl (process_comment sendOk t nowIso) init
  { leads := s.1, cursor := some now, acts := s.2.1, new_leads := s.2.2 }

/-- A DM thread, as the list of its nested messages. -/
structure Msg where
  from_id : String
  message : String
  created_time : String
deriving DecidableEq, Repr

/-- `LeadService._find_thread`: first conversation containing a message
from the given user id. -/
def find_thread (conversations : List (List Msg)) (ig_user_id : String) :
    Option (List Msg) :=
  conversations.find? (fun conv => conv.any (fun m => m.from_id = ig_user_id))

/-- `LeadService._last_message_timestamp`: timestamp of the last history
entry, `none` on empty history. -/
def last_message_timestamp (history : List HistEntry) : Option String :=
  (history.getLast?).map (fun e => e.timestamp)

/-- A message selected as new, as appended by `_extract_new_user_messages`. -/
structure NewMsg where
  text : String
  timestamp : String
deriving DecidableEq, Repr

/-- Lexicographic (code-point) comparison of character lists, as Python
compares strings. -/
def le_chars : List Char → List Char → Bool
  | [], _ => true
  | _ :: _, [] => false
  | a :: as, b :: bs => if a = b then le_chars as bs else decide (a < b)

/-- Python `a <= b` on strings. -/
def str_le (a b : String) : Bool := le_chars a.toList b.toList

/-- Strict Python string comparison `a < b`. -/
def str_lt (a b : String) : Bool := !(str_le b a)

/-- Python truthiness of the optional `since_timestamp` string. -/
def truthy (s : Option String) : Bool :=
  match s with
  | none => false
  | some t => decide (t ≠ "")

/-- `LeadService._extract_new_user_messages`: keep the thread's messages
authored by the lead, drop those at or before `since` when `since` is
truthy, and return them sorted ascending by timestamp. -/
def extract_new_user_messages (thread : List Msg) (ig_user_id : String)
    (since : Option String) : List NewMsg :=
  let result := (thread.filter (fun m =>
      decide (m.from_id = ig_user_id) &&
      !(truthy since && str_le m.created_time (since.getD "")))).map
    (fun m => { text := m.message, timestamp := m.created_time : NewMsg })
  result.mergeSort (fun a b => str_le a.timestamp b.timestamp)

/-- Modelled from the spec (refinement target, NOT the source): the
claim's description of new-message selection — the thread's messages
authored by the lead whose timestamp is strictly greater than the stored
history's last timestamp, sorted ascending; every such message when the
history is empty. -/
def claimed_new_user_messages (thread : List Msg) (ig_user_id : String)
    (since : Option String) : List NewMsg :=
  ((thread.filter (fun m =>
      decide (m.from_id = ig_user_id) &&
      (match since with
       | none => true
       | some t => str_lt t m.created_time))).map
    (fun m => { text := m.message, timestamp := m.created_time : NewMsg })).mergeSort
    (fun a b => str_le a.timestamp b.timestamp)

/-- Result of `_process_lead_conversation` on one lead: the lead's
committed state afterwards, the outgoing sends, and the return value. -/
structure ConvResult where
  stored : LeadRec
  acts : List LAction
  sent : Bool
deriving DecidableEq, Repr

/-- `LeadService._process_lead_conversation`: find the lead's thread,
extract the messages newer than the stored history's last timestamp,
append them, generate an AI reply (`gen`), send it (`sendOk`), and only
after a successful send persist the full updated history and the REPLIED
status in one commit; every earlier exit leaves the stored lead untouched. -/
def process_lead_conversation (gen : List HistEntry → Except String String)
    (sendOk : Bool) (nowIso : String) (lead : LeadRec)
    (conversations : List (List Msg)) : ConvResult :=
  let history := lead.conversation_history
  match find_thread conversations lead.commenter_ig_user_id with
  | none => ⟨lead, [], false⟩
  | some thread =>
    let last_ts := last_message_timestamp history
    let new_msgs := extract_new_user_messages thread lead.commenter_ig_user_id last_ts
    if new_msgs = [] then ⟨lead, [], false⟩
    else
      let history1 := history ++ new_msgs.map (fun m =>
        { role := "user", message := m.text, timestamp := m.timestamp : HistEntry })
      match gen history1 with
      | .error _ => ⟨lead, [], false⟩
      | .ok reply =>
        let acts := [LAction.sendMessage lead.commenter_ig_user_id reply]
        if sendOk = false then ⟨lead, acts, false⟩
        else
          let history2 := history1 ++
            [{ role := "assistant", message := reply, timestamp := nowIso : HistEntry }]
          ⟨{ lead with conversation_history := history2, status := LeadStatus.REPLIED },
            acts, true⟩

/-- One full comment-trigger poll at one instant: fetch (server-filtered by
the trigger's cursor when the fetch succeeds, a raised exception otherwise),
process the batch, and carry the advanced cursor back into the trigger. -/
structure PollSpec where
  ok : Bool
  now : Nat
  nowIso : String
deriving DecidableEq, Repr

/-- Run one poll of `_process_trigger` against the remote comment store. -/
def poll_once (sendOk : String → Bool) (all : List Comment) (t : Trigger)
    (leads : List LeadRec) (p : PollSpec) : Trigger × List LeadRec :=
  let fetch : Except String (List Comment) :=
    if p.ok then .ok (server_comments all t.last_polled_at) else .error "fetch failed"
  let r := process_trigger sendOk t fetch leads p.now p.nowIso
  ({ t with last_polled_at := r.cursor }, r.leads)

/-- Run a sequence of polls, threading trigger cursor and lead table. -/
def poll_many (sendOk : String → Bool) (all : List Comment)
    (t : Trigger) (leads : List LeadRec) (ps : List PollSpec) :
    Trigger × List LeadRec :=
  ps.foldl (fun st p => poll_once sendOk all st.1 st.2 p) (t, leads)

/-- The wait loop's FINISHED branch condition. -/
def finished_code (st : ContainerStatus) : Bool :=
  decide (st.status_code = some "FINISHED")

/-- The wait loop's ERROR branch condition. -/
def error_code (st : ContainerStatus) : Bool :=
  decide (st.status_code = some "ERROR")

/-- Branch condition under which the wait loop sleeps and polls again
(EXPIRED, IN_PROGRESS, or any unknown code). -/
def still_processing (st : ContainerStatus) : Bool :=
  !(finished_code st) && !(error_code st)

/-- A poll result on which the wait loop keeps polling (no raise from the
client, no terminal status code). -/
def keeps_polling (r : Except Exc ContainerStatus) : Bool :=
  match r with
  | .error _ => false
  | .ok st => still_processing st

/-- Number of container-create calls of any kind in a trace. -/
def count_creates (tr : List Req) : Nat :=
  tr.countP (fun r => match r with
    | Req.createMedia _ _ => true
    | Req.createVideo _ _ _ => true
    | Req.createCarouselItem _ => true
    | Req.createCarousel _ _ => true
    | Req.createStory _ => true
    | Req.createStoryVideo _ => true
    | _ => false)

/-- A scripted remote that always returns id "c1" and status FINISHED. -/
def oracleFin : Oracle :=
  ⟨fun _ => .ok "c1", fun _ => .ok ⟨some "FINISHED", none⟩⟩

/-- A scripted remote: three IN_PROGRESS polls, then FINISHED. -/
def oracleProgFin : Oracle :=
  ⟨fun _ => .ok "c1",
   fun i => if i < 3 then .ok ⟨some "IN_PROGRESS", none⟩ else .ok ⟨some "FINISHED", none⟩⟩

/-- A scripted remote whose containers always report status ERROR "boom". -/
def oracleErr : Oracle :=
  ⟨fun _ => .ok "c1", fun _ => .ok ⟨some "ERROR", some "boom"⟩⟩

/-- A scripted remote whose containers stay IN_PROGRESS forever. -/
def oracleBusy : Oracle :=
  ⟨fun _ => .ok "c1", fun _ => .ok ⟨some "IN_PROGRESS", none⟩⟩

/-- A scripted remote where every id-returning call raises a
`TransientFailure`. -/
def oracleTransient : Oracle :=
  ⟨fun _ => .error (.transientFailure "503"), fun _ => .ok ⟨some "FINISHED", none⟩⟩

/-- Number of polls the wait loop makes before declaring a timeout. -/
def num_polls (mw : Nat) : Nat := (mw + 4) / 5

/-- Number of story-container create calls in a trace. -/
def count_story_creates (tr : List Req) : Nat :=
  tr.countP (fun r => match r with
    | Req.createStory _ => true
    | Req.createStoryVideo _ => true
    | _ => false)

/-- Number of private replies addressed to a given comment id in an
action list. -/
def reply_count (acts : List LAction) (x : String) : Nat :=
  acts.countP (fun a => match a with
    | LAction.privateReply cid _ => decide (cid = x)
    | _ => false)

/-- Number of leads recorded for a given comment id. -/
def lead_count (leads : List LeadRec) (x : String) : Nat :=
  leads.countP (fun l => decide (l.comment_id = x))

/-- The item-wait phase of a carousel publish, as a constraint on the
status oracle: starting at call index `k`, each item id in order gets a
positive number of polls, the last of which reads FINISHED. -/
def wait_blocks (o : Oracle) : List String → List Nat → Nat → Prop
  | [], [], _ => True
  | i :: ids, m :: ms, k =>
      1 ≤ m ∧ (∃ st, o.stat (k + (m - 1)) = .ok st ∧ finished_code st = true) ∧
      wait_blocks o ids ms (k + m)
  | _, _, _ => False

/-- The trace of the item-wait phase: one block of `m i` status checks per
item id, in item order. -/
def check_blocks (ids : List String) (ms : List Nat) : List Req :=
  (List.zipWith (fun i m => List.replicate m (Req.checkStatus i)) ids ms).flatten

/-- Rebuild a `StepResult` equation from its three field equations. -/
lemma StepResult.eq_mk {α : Type} (x : StepResult α) (r : Except Exc α) (n : Nat)
    (l : List Req) (h1 : x.res = r) (h2 : x.k = n) (h3 : x.tr = l) : x = ⟨r, n, l⟩ := by
  cases x
  simp only at h1 h2 h3
  rw [h1, h2, h3]

lemma keeps_polling_elim {r : Except Exc ContainerStatus}
    (h : keeps_polling r = true) :
    ∃ st, r = .ok st ∧ st.status_code ≠ some "FINISHED" ∧
      st.status_code ≠ some "ERROR" := by
  cases r with
  | error e => simp [keeps_polling] at h
  | ok st =>
    simp [keeps_polling, still_processing, finished_code, error_code] at h
    exact ⟨st, rfl, h.1, h.2⟩

/-- Leading polls on which the loop keeps polling are skipped: the loop
advances by one check, five seconds and one call index per such poll. -/
lemma wait_skip (o : Oracle) (cid : String) (mw : Nat) :
    ∀ (j elapsed k : Nat) (tr : List Req),
    (∀ i, i < j → keeps_polling (o.stat (k + i)) = true) →
    (∀ i, i < j → elapsed + 5 * i < mw) →
    wait_for_container o cid mw elapsed k tr =
      wait_for_container o cid mw (elapsed + 5 * j) (k + j)
        (tr ++ List.replicate j (Req.checkStatus cid)) := by
  intro j
  induction j with
  | zero => intro elapsed k tr _ _; simp
  | succ j ih =>
    intro elapsed k tr hc hb
    have h0 : elapsed < mw := by
      have := hb 0 (by omega)
      omega
    have hk0 : keeps_polling (o.stat k) = true := by
      have := hc 0 (by omega)
      simpa using this
    obtain ⟨st, hst, hnf, hne⟩ := keeps_polling_elim hk0
    rw [wait_for_container]
    simp only [h0, if_true, hst, if_neg hnf, if_neg hne]
    have h5 : elapsed + CONTAINER_CHECK_INTERVAL = elapsed + 5 := by
      simp [CONTAINER_CHECK_INTERVAL]
    rw [h5]
    rw [ih (elapsed + 5) (k + 1) (tr ++ [Req.checkStatus cid])
      (fun i hi => by
        have := hc (i + 1) (by omega)
        have hx : k + (i + 1) = k + 1 + i := by omega
        rw [hx] at this
        exact this)
      (fun i hi => by
        have := hb (i + 1) (by omega)
        omega)]
    have hnum : elapsed + 5 + 5 * j = elapsed + 5 * (j + 1) := by ring
    have hlist : (tr ++ [Req.checkStatus cid]) ++ List.replicate j (Req.checkStatus cid) =
        tr ++ List.replicate (j + 1) (Req.checkStatus cid) := by
      simp [List.replicate_succ, List.append_assoc]
    rw [hnum, hlist]
    have hk : k + 1 + j = k + (j + 1) := by omega
    rw [hk]

/-- When polls `k..k+j-1` keep the loop polling and poll `k+j` (made while
the budget is not exhausted) reports FINISHED, the wait returns normally
after exactly `j+1` status checks on that container. -/
lemma wait_finished (o : Oracle) (cid : String) (mw j k : Nat) (tr : List Req)
    (st : ContainerStatus)
    (hc : ∀ i, i < j → keeps_polling (o.stat (k + i)) = true)
    (hj : 5 * j < mw)
    (hst : o.stat (k + j) = .ok st)
    (hf : st.status_code = some "FINISHED") :
    wait_for_container o cid mw 0 k tr =
      ⟨.ok (), k + j + 1, tr ++ List.replicate (j + 1) (Req.checkStatus cid)⟩ := by
  rw [wait_skip o cid mw j 0 k tr hc (fun i hi => by omega)]
  rw [wait_for_container]
  have hlt : 0 + 5 * j < mw := by omega
  simp only [hlt, if_true, hst]
  rw [if_pos hf]
  simp [List.replicate_succ', List.append_assoc]

/-- When polls `k..k+j-1` keep the loop polling and poll `k+j` (made while
the budget is not exhausted) reports ERROR, the wait raises a
`PublishError` carrying the remote status text, after `j+1` checks. -/
lemma wait_error (o : Oracle) (cid : String) (mw j k : Nat) (tr : List Req)
    (st : ContainerStatus)
    (hc : ∀ i, i < j → keeps_polling (o.stat (k + i)) = true)
    (hj : 5 * j < mw)
    (hst : o.stat (k + j) = .ok st)
    (he : st.status_code = some "ERROR") :
    wait_for_container o cid mw 0 k tr =
      ⟨.error (.publishError ("Container failed: " ++ st.status.getD "Unknown error")),
        k + j + 1, tr ++ List.replicate (j + 1) (Req.checkStatus cid)⟩ := by
  rw [wait_skip o cid mw j 0 k tr hc (fun i hi => by omega)]
  rw [wait_for_container]
  have hlt : 0 + 5 * j < mw := by omega
  have hnf : ¬ st.status_code = some "FINISHED" := by rw [he]; simp
  simp only [hlt, if_true, hst]
  rw [if_neg hnf, if_pos he]
  simp [List.replicate_succ', List.append_assoc]

/-- When every poll within the budget keeps the loop polling, the wait
raises the timeout `PublishError` after exactly `num_polls mw` checks. -/
lemma wait_timeout (o : Oracle) (cid : String) (mw k : Nat) (tr : List Req)
    (hc : ∀ i, i < num_polls mw → keeps_polling (o.stat (k + i)) = true) :
    wait_for_container o cid mw 0 k tr =
      ⟨.error (.publishError ("Container timed out after " ++ toString mw ++ " seconds")),
        k + num_polls mw, tr ++ List.replicate (num_polls mw) (Req.checkStatus cid)⟩ := by
  rw [wait_skip o cid mw (num_polls mw) 0 k tr hc
    (fun i hi => by unfold num_polls at hi; omega)]
  rw [wait_for_container]
  have hge : ¬ 5 * num_polls mw < mw := by unfold num_polls; omega
  simp [hge]

/-- Whatever happens, a wait appends only status checks on its container
and bumps the call counter by one per check. -/
lemma wait_trace_shape (o : Oracle) (cid : String) (mw : Nat) :
    ∀ (elapsed k : Nat) (tr : List Req),
    ∃ m, (wait_for_container o cid mw elapsed k tr).k = k + m ∧
      (wait_for_container o cid mw elapsed k tr).tr =
        tr ++ List.replicate m (Req.checkStatus cid) := by
  intro elapsed k tr
  induction elapsed, k, tr using wait_for_container.induct o cid mw with
  | case1 elapsed k tr hlt e hst =>
    refine ⟨1, ?_, ?_⟩ <;> rw [wait_for_container] <;> simp [hlt, hst]
  | case2 elapsed k tr hlt st hst hf =>
    refine ⟨1, ?_, ?_⟩ <;> rw [wait_for_container] <;> simp [hlt, hst, hf]
  | case3 elapsed k tr hlt st hst hnf he =>
    refine ⟨1, ?_, ?_⟩ <;> rw [wait_for_container] <;> simp [hlt, hst, hnf, he]
  | case4 elapsed k tr hlt st hst hnf hne ih =>
    obtain ⟨m, hk, htr⟩ := ih
    refine ⟨m + 1, ?_, ?_⟩ <;> rw [wait_for_container] <;>
      simp only [hlt, if_true, hst, if_neg hnf, if_neg hne]
    · rw [hk]; omega
    · rw [htr]
      simp [List.replicate_succ, List.append_assoc]
  | case5 elapsed k tr hge =>
    refine ⟨0, ?_, ?_⟩ <;> rw [wait_for_container] <;> simp [hge]

/-- A successful wait made at least one check, and the last status it read
was FINISHED. -/
lemma wait_success_shape (o : Oracle) (cid : String) (mw : Nat) :
    ∀ (elapsed k : Nat) (tr : List Req),
    (wait_for_container o cid mw elapsed k tr).res = .ok () →
    ∃ m, 1 ≤ m ∧ (wait_for_container o cid mw elapsed k tr).k = k + m ∧
      (wait_for_container o cid mw elapsed k tr).tr =
        tr ++ List.replicate m (Req.checkStatus cid) ∧
      ∃ st, o.stat (k + (m - 1)) = .ok st ∧ finished_code st = true := by
  intro elapsed k tr
  induction elapsed, k, tr using wait_for_container.induct o cid mw with
  | case1 elapsed k tr hlt e hst =>
    intro hres
    rw [wait_for_container] at hres
    simp [hlt, hst] at hres
  | case2 elapsed k tr hlt st hst hf =>
    intro _
    refine ⟨1, le_refl 1, ?_, ?_, st, by simpa using hst, by simp [finished_code, hf]⟩ <;>
      rw [wait_for_container] <;> simp [hlt, hst, hf]
  | case3 elapsed k tr hlt st hst hnf he =>
    intro hres
    rw [wait_for_container] at hres
    simp [hlt, hst, hnf, he] at hres
  | case4 elapsed k tr hlt st hst hnf hne ih =>
    intro hres
    rw [wait_for_container] at hres
    simp only [hlt, if_true, hst, if_neg hnf, if_neg hne] at hres
    obtain ⟨m, hm1, hk, htr, st2, hst2, hf2⟩ := ih hres
    refine ⟨m + 1, by omega, ?_, ?_, st2, ?_, hf2⟩
    · rw [wait_for_container]
      simp only [hlt, if_true, hst, if_neg hnf, if_neg hne]
      rw [hk]; omega
    · rw [wait_for_container]
      simp only [hlt, if_true, hst, if_neg hnf, if_neg hne]
      rw [htr]
      simp [List.replicate_succ, List.append_assoc]
    · have hx : k + 1 + (m - 1) = k + (m + 1 - 1) := by omega
      rw [hx] at hst2
      exact hst2
  | case5 elapsed k tr hge =>
    intro hres
    rw [wait_for_container] at hres
    simp [hge] at hres

/-- C3: `_wait_for_container` polls at a fixed 5-second interval.  It
returns normally on the first poll yielding FINISHED; it raises a
`PublishError` carrying the remote status text on the first poll yielding
ERROR; it treats IN_PROGRESS and EXPIRED alike as still-processing and
keeps polling; and when no poll within the budget is terminal it raises
the timeout error with accumulated polling time at least the budget and
strictly below budget plus one interval.  The image/story wait budget is
300 s (60 polls) and the video/reel/story-video budget 600 s (120 polls). -/
theorem C3_wait_for_container_behaviour :
    (∀ st : ContainerStatus,
      st.status_code = some "IN_PROGRESS" ∨ st.status_code = some "EXPIRED" →
      still_processing st = true)
    ∧ (∀ (o : Oracle) (cid : String) (mw j k : Nat) (tr : List Req) (st : ContainerStatus),
        (∀ i, i < j → keeps_polling (o.stat (k + i)) = true) → 5 * j < mw →
        o.stat (k + j) = .ok st → st.status_code = some "FINISHED" →
        wait_for_container o cid mw 0 k tr =
          ⟨.ok (), k + j + 1, tr ++ List.replicate (j + 1) (Req.checkStatus cid)⟩)
    ∧ (∀ (o : Oracle) (cid : String) (mw j k : Nat) (tr : List Req) (st : ContainerStatus),
        (∀ i, i < j → keeps_polling (o.stat (k + i)) = true) → 5 * j < mw →
        o.stat (k + j) = .ok st → st.status_code = some "ERROR" →
        wait_for_container o cid mw 0 k tr =
          ⟨.error (.publishError ("Container failed: " ++ st.status.getD "Unknown error")),
            k + j + 1, tr ++ List.replicate (j + 1) (Req.checkStatus cid)⟩)
    ∧ (∀ (o : Oracle) (cid : String) (mw k : Nat) (tr : List Req),
        (∀ i, i < num_polls mw → keeps_polling (o.stat (k + i)) = true) →
        wait_for_container o cid mw 0 k tr =
          ⟨.error (.publishError ("Container timed out after " ++ toString mw ++ " seconds")),
            k + num_polls mw, tr ++ List.replicate (num_polls mw) (Req.checkStatus cid)⟩
          ∧ mw ≤ CONTAINER_CHECK_INTERVAL * num_polls mw
          ∧ CONTAINER_CHECK_INTERVAL * num_polls mw < mw + CONTAINER_CHECK_INTERVAL)
    ∧ (∀ (o : Oracle) (u c cid : String) (k : Nat) (tr : List Req),
        o.resp k = .ok cid → (∀ i, keeps_polling (o.stat i) = true) →
        publish_image_once o u c k tr =
          ⟨.error (.publishError "Container timed out after 300 seconds"),
            k + 61, (tr ++ [Req.createMedia u c]) ++ List.replicate 60 (Req.checkStatus cid)⟩)
    ∧ (∀ (o : Oracle) (u c m cid : String) (k : Nat) (tr : List Req),
        o.resp k = .ok cid → (∀ i, keeps_polling (o.stat i) = true) →
        publish_video_once o u c m k tr =
          ⟨.error (.publishError "Container timed out after 600 seconds"),
            k + 121, (tr ++ [Req.createVideo u c m]) ++ List.replicate 120 (Req.checkStatus cid)⟩) := by
  refine ⟨?_, ?_, ?_, ?_, ?_, ?_⟩
  · intro st h
    rcases h with h | h <;> simp [still_processing, finished_code, error_code, h]
  · intro o cid mw j k tr st hc hj hst hf
    exact wait_finished o cid mw j k tr st hc hj hst hf
  · intro o cid mw j k tr st hc hj hst he
    exact wait_error o cid mw j k tr st hc hj hst he
  · intro o cid mw k tr hc
    refine ⟨wait_timeout o cid mw k tr hc, ?_, ?_⟩ <;>
      · unfold CONTAINER_CHECK_INTERVAL num_polls
        omega
  · intro o u c cid k tr hresp hall
    unfold publish_image_once callId
    simp only [hresp]
    rw [show CONTAINER_MAX_WAIT = 300 from rfl]
    rw [wait_timeout o cid 300 (k + 1) (tr ++ [Req.createMedia u c])
      (fun i _ => hall (k + 1 + i))]
    simp only [StepResult.mk.injEq]
    refine ⟨by rfl, by unfold num_polls; omega, by rfl⟩
  · intro o u c m cid k tr hresp hall
    unfold publish_video_once callId
    simp only [hresp]
    rw [wait_timeout o cid 600 (k + 1) (tr ++ [Req.createVideo u c m])
      (fun i _ => hall (k + 1 + i))]
    simp only [StepResult.mk.injEq]
    refine ⟨by rfl, by unfold num_polls; omega, by rfl⟩

/-- Witness for C3: on a container that is IN_PROGRESS for three polls and
FINISHED on the fourth, the wait returns normally after four checks. -/
theorem C3_wait_for_container_behaviour_witness :
    wait_for_container oracleProgFin "c1" 300 0 0 [] =
      ⟨.ok (), 4, List.replicate 4 (Req.checkStatus "c1")⟩ := by
  have h := C3_wait_for_container_behaviour.2.1 oracleProgFin "c1" 300 3 0 []
    ⟨some "FINISHED", none⟩ (by decide) (by norm_num) (by rfl) rfl
  simpa using h

lemma count_creates_append (a b : List Req) :
    count_creates (a ++ b) = count_creates a + count_creates b := by
  unfold count_creates
  exact List.countP_append _ _ _

lemma count_creates_checks (m : Nat) (cid : String) :
    count_creates (List.replicate m (Req.checkStatus cid)) = 0 := by
  induction m with
  | zero => rfl
  | succ n ih =>
    unfold count_creates at ih ⊢
    simp only [List.replicate_succ, List.countP_cons]
    simp [ih]

/-- Every single attempt of `publish_image` issues exactly one create. -/
lemma publish_image_once_creates (o : Oracle) (u c : String) (k : Nat) (tr : List Req) :
    count_creates (publish_image_once o u c k tr).tr = count_creates tr + 1 := by
  unfold publish_image_once callId
  cases hr : o.resp k with
  | error e => simp [count_creates_append, count_creates]
  | ok cid =>
    simp only
    obtain ⟨m, hk, htr⟩ :=
      wait_trace_shape o cid CONTAINER_MAX_WAIT 0 (k + 1) (tr ++ [Req.createMedia u c])
    cases hw : (wait_for_container o cid CONTAINER_MAX_WAIT 0 (k + 1)
        (tr ++ [Req.createMedia u c])).res with
    | error e =>
      simp only [hw]
      rw [htr, count_creates_append, count_creates_append, count_creates_checks]
      simp [count_creates]
    | ok _ =>
      simp only [hw]
      rw [count_creates_append, htr, count_creates_append, count_creates_append,
        count_creates_checks]
      simp [count_creates]

/-- Every single attempt of `publish_video` issues exactly one create. -/
lemma publish_video_once_creates (o : Oracle) (u c m : String) (k : Nat) (tr : List Req) :
    count_creates (publish_video_once o u c m k tr).tr = count_creates tr + 1 := by
  unfold publish_video_once callId
  cases hr : o.resp k with
  | error e => simp [count_creates_append, count_creates]
  | ok cid =>
    simp only
    obtain ⟨n, hk, htr⟩ :=
      wait_trace_shape o cid 600 0 (k + 1) (tr ++ [Req.createVideo u c m])
    cases hw : (wait_for_container o cid 600 0 (k + 1)
        (tr ++ [Req.createVideo u c m])).res with
    | error e =>
      simp only [hw]
      rw [htr, count_creates_append, count_creates_append, count_creates_checks]
      simp [count_creates]
    | ok _ =>
      simp only [hw]
      rw [count_creates_append, htr, count_creates_append, count_creates_append,
        count_creates_checks]
      simp [count_creates]

/-- Every single attempt of `publish_story` issues exactly one create. -/
lemma publish_story_once_creates (o : Oracle) (u : String) (k : Nat) (tr : List Req) :
    count_creates (publish_story_once o u k tr).tr = count_creates tr + 1 := by
  unfold publish_story_once callId
  cases hr : o.resp k with
  | error e => simp [count_creates_append, count_creates]
  | ok cid =>
    simp only
    obtain ⟨n, hk, htr⟩ :=
      wait_trace_shape o cid CONTAINER_MAX_WAIT 0 (k + 1) (tr ++ [Req.createStory u])
    cases hw : (wait_for_container o cid CONTAINER_MAX_WAIT 0 (k + 1)
        (tr ++ [Req.createStory u])).res with
    | error e =>
      simp only [hw]
      rw [htr, count_creates_append, count_creates_append, count_creates_checks]
      simp [count_creates]
    | ok _ =>
      simp only [hw]
      rw [count_creates_append, htr, count_creates_append, count_creates_append,
        count_creates_checks]
      simp [count_creates]

/-- Every single attempt of `publish_story_video` issues exactly one create. -/
lemma publish_story_video_once_creates (o : Oracle) (u : String) (k : Nat) (tr : List Req) :
    count_creates (publish_story_video_once o u k tr).tr = count_creates tr + 1 := by
  unfold publish_story_video_once callId
  cases hr : o.resp k with
  | error e => simp [count_creates_append, count_creates]
  | ok cid =>
    simp only
    obtain ⟨n, hk, htr⟩ :=
      wait_trace_shape o cid 600 0 (k + 1) (tr ++ [Req.createStoryVideo u])
    cases hw : (wait_for_container o cid 600 0 (k + 1)
        (tr ++ [Req.createStoryVideo u])).res with
    | error e =>
      simp only [hw]
      rw [htr, count_creates_append, count_creates_append, count_creates_checks]
      simp [count_creates]
    | ok _ =>
      simp only [hw]
      rw [count_creates_append, htr, count_creates_append, count_creates_append,
        count_creates_checks]
      simp [count_creates]

/-- `retry3` stops at the first successful attempt. -/
lemma retry3_ok (f : Nat → List Req → StepResult String) (k : Nat) (tr : List Req)
    (v : String) (h : (f k tr).res = .ok v) : retry3 f k tr = f k tr := by
  unfold retry3
  rw [h]

/-- A failed first and second attempt make `retry3` return the third
attempt verbatim. -/
lemma retry3_err2 (f : Nat → List Req → StepResult String) (k : Nat) (tr : List Req)
    (e1 e2 : Exc) (h1 : (f k tr).res = .error e1)
    (h2 : (f (f k tr).k (f k tr).tr).res = .error e2) :
    retry3 f k tr = f (f (f k tr).k (f k tr).tr).k (f (f k tr).k (f k tr).tr).tr := by
  unfold retry3
  rw [h1, h2]

/-- A failed first attempt and successful second make `retry3` return the
second attempt verbatim. -/
lemma retry3_err1_ok (f : Nat → List Req → StepResult String) (k : Nat) (tr : List Req)
    (e1 : Exc) (v : String) (h1 : (f k tr).res = .error e1)
    (h2 : (f (f k tr).k (f k tr).tr).res = .ok v) :
    retry3 f k tr = f (f k tr).k (f k tr).tr := by
  unfold retry3
  rw [h1, h2]

/-- Attempt-count bounds for `retry3` over any body issuing exactly one
create per attempt: at most three attempts; exactly three when the final
result is an error; at least a second attempt whenever the first attempt
fails with ANY exception. -/
lemma retry3_creates (f : Nat → List Req → StepResult String)
    (hf : ∀ k tr, count_creates (f k tr).tr = count_creates tr + 1) (k : Nat) (tr : List Req) :
    (count_creates (retry3 f k tr).tr ≤ count_creates tr + 3)
    ∧ (∀ e, (retry3 f k tr).res = .error e →
        count_creates (retry3 f k tr).tr = count_creates tr + 3)
    ∧ (∀ e, (f k tr).res = .error e →
        count_creates tr + 2 ≤ count_creates (retry3 f k tr).tr) := by
  cases h1 : (f k tr).res with
  | ok v =>
    have hr1 : retry3 f k tr = f k tr := retry3_ok f k tr v h1
    refine ⟨?_, ?_, ?_⟩
    · rw [hr1, hf]
      omega
    · intro e he
      rw [hr1, h1] at he
      simp at he
    · intro e he
      simp at he
  | error e1 =>
    cases h2 : (f (f k tr).k (f k tr).tr).res with
    | ok v =>
      have hr1 : retry3 f k tr = f (f k tr).k (f k tr).tr :=
        retry3_err1_ok f k tr e1 v h1 h2
      have hc2 : count_creates (f (f k tr).k (f k tr).tr).tr = count_creates tr + 2 := by
        rw [hf, hf]
      refine ⟨?_, ?_, ?_⟩
      · rw [hr1, hc2]
        omega
      · intro e he
        rw [hr1, h2] at he
        simp at he
      · intro e _
        rw [hr1, hc2]
    | error e2 =>
      have hr1 : retry3 f k tr =
          f (f (f k tr).k (f k tr).tr).k (f (f k tr).k (f k tr).tr).tr :=
        retry3_err2 f k tr e1 e2 h1 h2
      have hc3 : count_creates (f (f (f k tr).k (f k tr).tr).k
          (f (f k tr).k (f k tr).tr).tr).tr = count_creates tr + 3 := by
        rw [hf, hf, hf]
      refine ⟨?_, ?_, ?_⟩
      · rw [hr1, hc3]
      · intro e _
        rw [hr1, hc3]
      · intro e _
        rw [hr1, hc3]
        omega

/-- A `publish_image` attempt whose container reports ERROR on the very
first poll raises the `PublishError` with the remote text after one create
and one check. -/
lemma publish_image_once_first_error (o : Oracle) (u c cid : String) (k : Nat)
    (tr : List Req) (st : ContainerStatus)
    (hresp : o.resp k = .ok cid)
    (hstat : o.stat (k + 1) = .ok st)
    (he : st.status_code = some "ERROR") :
    publish_image_once o u c k tr =
      ⟨.error (.publishError ("Container failed: " ++ st.status.getD "Unknown error")),
        k + 2, tr ++ [Req.createMedia u c, Req.checkStatus cid]⟩ := by
  have hw := wait_error o cid CONTAINER_MAX_WAIT 0 (k + 1)
    (tr ++ [Req.createMedia u c]) st
    (fun i hi => absurd hi (by omega)) (by norm_num [CONTAINER_MAX_WAIT])
    (by simpa using hstat) he
  unfold publish_image_once callId
  rw [hresp]
  simp only [hw]
  congr 1 <;> first | omega | simp

/-- A `publish_image` attempt whose container reports FINISHED on the very
first poll succeeds after one create, one check and one publish. -/
lemma publish_image_once_first_ok (o : Oracle) (u c cid mid : String) (k : Nat)
    (tr : List Req) (st : ContainerStatus)
    (hresp : o.resp k = .ok cid)
    (hstat : o.stat (k + 1) = .ok st)
    (hf : st.status_code = some "FINISHED")
    (hpub : o.resp (k + 2) = .ok mid) :
    publish_image_once o u c k tr =
      ⟨.ok mid, k + 3,
        tr ++ [Req.createMedia u c, Req.checkStatus cid, Req.publishMedia cid]⟩ := by
  have hw := wait_finished o cid CONTAINER_MAX_WAIT 0 (k + 1)
    (tr ++ [Req.createMedia u c]) st
    (fun i hi => absurd hi (by omega)) (by norm_num [CONTAINER_MAX_WAIT])
    (by simpa using hstat) hf
  unfold publish_image_once callId
  rw [hresp]
  simp only [hw]
  simp [hpub]

/-- C1 counterexample: with a remote whose containers always report
status ERROR "boom", `publish_image` issues THREE container creates (the
whole attempt, polling loop included, is retried after the
PROCESSING_FAILED classification) before propagating the error — the
claim says such a failure is never retried; and with a remote whose first
create raises a `TransientFailure`, `publish_carousel` issues exactly ONE
create and propagates immediately — the claim says carousel creates are
retried up to 3 times on `TransientFailure`. -/
theorem C1_counterexample :
    (publish_image oracleErr "u" "cap" 0 []).res =
      .error (.publishError "Container failed: boom")
    ∧ count_creates (publish_image oracleErr "u" "cap" 0 []).tr = 3
    ∧ (publish_carousel oracleTransient ["a", "b"] "cap" 0 []).res =
      .error (.transientFailure "503")
    ∧ count_creates (publish_carousel oracleTransient ["a", "b"] "cap" 0 []).tr = 1 := by
  have e1 : publish_image_once oracleErr "u" "cap" 0 [] =
      ⟨.error (.publishError "Container failed: boom"), 2,
        [Req.createMedia "u" "cap", Req.checkStatus "c1"]⟩ := by
    simpa using publish_image_once_first_error oracleErr "u" "cap" "c1" 0 []
      ⟨some "ERROR", some "boom"⟩ rfl rfl rfl
  have e2 : publish_image_once oracleErr "u" "cap" 2
      [Req.createMedia "u" "cap", Req.checkStatus "c1"] =
      ⟨.error (.publishError "Container failed: boom"), 4,
        [Req.createMedia "u" "cap", Req.checkStatus "c1",
         Req.createMedia "u" "cap", Req.checkStatus "c1"]⟩ := by
    simpa using publish_image_once_first_error oracleErr "u" "cap" "c1" 2
      [Req.createMedia "u" "cap", Req.checkStatus "c1"]
      ⟨some "ERROR", some "boom"⟩ rfl rfl rfl
  have e3 : publish_image_once oracleErr "u" "cap" 4
      [Req.createMedia "u" "cap", Req.checkStatus "c1",
       Req.createMedia "u" "cap", Req.checkStatus "c1"] =
      ⟨.error (.publishError "Container failed: boom"), 6,
        [Req.createMedia "u" "cap", Req.checkStatus "c1",
         Req.createMedia "u" "cap", Req.checkStatus "c1",
         Req.createMedia "u" "cap", Req.checkStatus "c1"]⟩ := by
    simpa using publish_image_once_first_error oracleErr "u" "cap" "c1" 4
      [Req.createMedia "u" "cap", Req.checkStatus "c1",
       Req.createMedia "u" "cap", Req.checkStatus "c1"]
      ⟨some "ERROR", some "boom"⟩ rfl rfl rfl
  have himg : publish_image oracleErr "u" "cap" 0 [] =
      ⟨.error (.publishError "Container failed: boom"), 6,
        [Req.createMedia "u" "cap", Req.checkStatus "c1",
         Req.createMedia "u" "cap", Req.checkStatus "c1",
         Req.createMedia "u" "cap", Req.checkStatus "c1"]⟩ := by
    unfold publish_image
    rw [retry3_err2 (publish_image_once oracleErr "u" "cap") 0 []
      (.publishError "Container failed: boom") (.publishError "Container failed: boom")
      (by rw [e1]) (by rw [e1]; rw [e2])]
    rw [e1, e2]
    exact e3
  have hci : create_items oracleTransient ["a", "b"] 0 [] =
      ⟨.error (.transientFailure "503"), 1, [Req.createCarouselItem "a"]⟩ := by
    unfold create_items callId
    rfl
  have hcar : publish_carousel oracleTransient ["a", "b"] "cap" 0 [] =
      ⟨.error (.transientFailure "503"), 1, [Req.createCarouselItem "a"]⟩ := by
    unfold publish_carousel
    rw [hci]
  exact ⟨by rw [himg], by rw [himg]; rfl, by rw [hcar], by rw [hcar]; rfl⟩

/-- C1 amended: each of publish_image / publish_video / publish_story /
publish_story_video retries its WHOLE body — container create, polling
loop and publish — up to 3 attempts on ANY exception (including
`PublishError` failures classified PROCESSING_FAILED or TIMED_OUT) with
the final exception reraised to the caller, the first success ending the
retries; `publish_carousel` carries no retry decorator at all: its first
failure propagates immediately after a single create. -/
theorem C1_amended_retry_behaviour :
    (∀ (o : Oracle) (u c : String) (k : Nat) (tr : List Req) (v : String),
      (publish_image_once o u c k tr).res = .ok v →
      publish_image o u c k tr = publish_image_once o u c k tr)
    ∧ (∀ (o : Oracle) (u c : String) (k : Nat) (tr : List Req),
      count_creates (publish_image o u c k tr).tr ≤ count_creates tr + 3)
    ∧ (∀ (o : Oracle) (u c : String) (k : Nat) (tr : List Req) (e : Exc),
      (publish_image o u c k tr).res = .error e →
      count_creates (publish_image o u c k tr).tr = count_creates tr + 3)
    ∧ (∀ (o : Oracle) (u c : String) (k : Nat) (tr : List Req) (e : Exc),
      (publish_image_once o u c k tr).res = .error e →
      count_creates tr + 2 ≤ count_creates (publish_image o u c k tr).tr)
    ∧ (∀ (o : Oracle) (u c m : String) (k : Nat) (tr : List Req) (v : String),
      (publish_video_once o u c m k tr).res = .ok v →
      publish_video o u c m k tr = publish_video_once o u c m k tr)
    ∧ (∀ (o : Oracle) (u c m : String) (k : Nat) (tr : List Req),
      count_creates (publish_video o u c m k tr).tr ≤ count_creates tr + 3)
    ∧ (∀ (o : Oracle) (u c m : String) (k : Nat) (tr : List Req) (e : Exc),
      (publish_video o u c m k tr).res = .error e →
      count_creates (publish_video o u c m k tr).tr = count_creates tr + 3)
    ∧ (∀ (o : Oracle) (u c m : String) (k : Nat) (tr : List Req) (e : Exc),
      (publish_video_once o u c m k tr).res = .error e →
      count_creates tr + 2 ≤ count_creates (publish_video o u c m k tr).tr)
    ∧ (∀ (o : Oracle) (u : String) (k : Nat) (tr : List Req) (v : String),
      (publish_story_once o u k tr).res = .ok v →
      publish_story o u k tr = publish_story_once o u k tr)
    ∧ (∀ (o : Oracle) (u : String) (k : Nat) (tr : List Req),
      count_creates (publish_story o u k tr).tr ≤ count_creates tr + 3)
    ∧ (∀ (o : Oracle) (u : String) (k : Nat) (tr : List Req) (e : Exc),
      (publish_story o u k tr).res = .error e →
      count_creates (publish_story o u k tr).tr = count_creates tr + 3)
    ∧ (∀ (o : Oracle) (u : String) (k : Nat) (tr : List Req) (v : String),
      (publish_story_video_once o u k tr).res = .ok v →
      publish_story_video o u k tr = publish_story_video_once o u k tr)
    ∧ (∀ (o : Oracle) (u : String) (k : Nat) (tr : List Req),
      count_creates (publish_story_video o u k tr).tr ≤ count_creates tr + 3)
    ∧ (∀ (o : Oracle) (u : String) (k : Nat) (tr : List Req) (e : Exc),
      (publish_story_video o u k tr).res = .error e →
      count_creates (publish_story_video o u k tr).tr = count_creates tr + 3)
    ∧ (∀ (o : Oracle) (u : String) (rest : List String) (cap : String) (k : Nat)
        (tr : List Req) (e : Exc),
      o.resp k = .error e →
      publish_carousel o (u :: rest) cap k tr =
        ⟨.error e, k + 1, tr ++ [Req.createCarouselItem u]⟩) := by
  refine ⟨?_, ?_, ?_, ?_, ?_, ?_, ?_, ?_, ?_, ?_, ?_, ?_, ?_, ?_, ?_⟩
  · intro o u c k tr v h
    exact retry3_ok (publish_image_once o u c) k tr v h
  · intro o u c k tr
    exact (retry3_creates (publish_image_once o u c)
      (publish_image_once_creates o u c) k tr).1
  · intro o u c k tr e he
    exact (retry3_creates (publish_image_once o u c)
      (publish_image_once_creates o u c) k tr).2.1 e he
  · intro o u c k tr e he
    exact (retry3_creates (publish_image_once o u c)
      (publish_image_once_creates o u c) k tr).2.2 e he
  · intro o u c m k tr v h
    exact retry3_ok (publish_video_once o u c m) k tr v h
  · intro o u c m k tr
    exact (retry3_creates (publish_video_once o u c m)
      (publish_video_once_creates o u c m) k tr).1
  · intro o u c m k tr e he
    exact (retry3_creates (publish_video_once o u c m)
      (publish_video_once_creates o u c m) k tr).2.1 e he
  · intro o u c m k tr e he
    exact (retry3_creates (publish_video_once o u c m)
      (publish_video_once_creates o u c m) k tr).2.2 e he
  · intro o u k tr v h
    exact retry3_ok (publish_story_once o u) k tr v h
  · intro o u k tr
    exact (retry3_creates (publish_story_once o u)
      (publish_story_once_creates o u) k tr).1
  · intro o u k tr e he
    exact (retry3_creates (publish_story_once o u)
      (publish_story_once_creates o u) k tr).2.1 e he
  · intro o u k tr v h
    exact retry3_ok (publish_story_video_once o u) k tr v h
  · intro o u k tr
    exact (retry3_creates (publish_story_video_once o u)
      (publish_story_video_once_creates o u) k tr).1
  · intro o u k tr e he
    exact (retry3_creates (publish_story_video_once o u)
      (publish_story_video_once_creates o u) k tr).2.1 e he
  · intro o u rest cap k tr e hresp
    have hci : create_items o (u :: rest) k tr =
        ⟨.error e, k + 1, tr ++ [Req.createCarouselItem u]⟩ := by
      unfold create_items callId
      rw [hresp]
    unfold publish_carousel
    rw [hci]

/-- Witness for C1 amended: a first attempt that fails with a
PROCESSING_FAILED `PublishError` forces a second container create. -/
theorem C1_amended_retry_behaviour_witness :
    count_creates ([] : List Req) + 2 ≤
      count_creates (publish_image oracleErr "u" "cap" 0 []).tr := by
  apply C1_amended_retry_behaviour.2.2.2.1 oracleErr "u" "cap" 0 []
    (.publishError "Container failed: boom")
  rw [publish_image_once_first_error oracleErr "u" "cap" "c1" 0 []
    ⟨some "ERROR", some "boom"⟩ rfl rfl rfl]
  rfl

/-- A successful item-create phase issues exactly one create per URL, in
order, and returns one container id per URL. -/
lemma create_items_ok_shape (o : Oracle) :
    ∀ (urls : List String) (k : Nat) (tr : List Req) (ids : List String),
    (create_items o urls k tr).res = .ok ids →
    (create_items o urls k tr).k = k + urls.length ∧
    (create_items o urls k tr).tr = tr ++ urls.map Req.createCarouselItem ∧
    ids.length = urls.length := by
  intro urls
  induction urls with
  | nil =>
    intro k tr ids h
    have h2 : ([] : List String) = ids := by simpa [create_items] using h
    refine ⟨by simp [create_items], by simp [create_items], by simp [← h2]⟩
  | cons u rest ih =>
    intro k tr ids h
    cases hr : o.resp k with
    | error e =>
      have hc : create_items o (u :: rest) k tr =
          ⟨.error e, k + 1, tr ++ [Req.createCarouselItem u]⟩ := by
        rw [create_items]
        simp only [callId]
        rw [hr]
      rw [hc] at h
      simp at h
    | ok cid =>
      cases hrec : (create_items o rest (k + 1) (tr ++ [Req.createCarouselItem u])).res with
      | error e =>
        have hc : create_items o (u :: rest) k tr =
            ⟨.error e, (create_items o rest (k + 1) (tr ++ [Req.createCarouselItem u])).k,
              (create_items o rest (k + 1) (tr ++ [Req.createCarouselItem u])).tr⟩ := by
          rw [create_items]
          simp only [callId]
          rw [hr]
          simp only
          rw [hrec]
        rw [hc] at h
        simp at h
      | ok ids2 =>
        have hc : create_items o (u :: rest) k tr =
            ⟨.ok (cid :: ids2), (create_items o rest (k + 1) (tr ++ [Req.createCarouselItem u])).k,
              (create_items o rest (k + 1) (tr ++ [Req.createCarouselItem u])).tr⟩ := by
          rw [create_items]
          simp only [callId]
          rw [hr]
          simp only
          rw [hrec]
        obtain ⟨ihk, ihtr, ihlen⟩ := ih (k + 1) (tr ++ [Req.createCarouselItem u]) ids2 hrec
        have hids : ids = cid :: ids2 := by
          rw [hc] at h
          simpa using h.symm
        refine ⟨?_, ?_, ?_⟩
        · rw [hc]
          simp only
          rw [ihk]
          simp
          omega
        · rw [hc]
          simp only
          rw [ihtr]
          simp
        · rw [hids]
          simp [ihlen]

/-- A successful item-wait phase polls each item id in order, a positive
number of checks per item ending in a FINISHED read, and issues nothing
else. -/
lemma wait_items_ok_shape (o : Oracle) :
    ∀ (ids : List String) (k : Nat) (tr : List Req),
    (wait_items o ids k tr).res = .ok () →
    ∃ ms : List Nat, ms.length = ids.length ∧ wait_blocks o ids ms k ∧
      (wait_items o ids k tr).k = k + ms.sum ∧
      (wait_items o ids k tr).tr = tr ++ check_blocks ids ms := by
  intro ids
  induction ids with
  | nil =>
    intro k tr _
    exact ⟨[], rfl, trivial, by simp [wait_items], by simp [wait_items, check_blocks]⟩
  | cons i rest ih =>
    intro k tr h
    cases hw : (wait_for_container o i CONTAINER_MAX_WAIT 0 k tr).res with
    | error e =>
      have hc : wait_items o (i :: rest) k tr =
          ⟨.error e, (wait_for_container o i CONTAINER_MAX_WAIT 0 k tr).k,
            (wait_for_container o i CONTAINER_MAX_WAIT 0 k tr).tr⟩ := by
        rw [wait_items]
        rw [hw]
      rw [hc] at h
      simp at h
    | ok u0 =>
      have hres : (wait_for_container o i CONTAINER_MAX_WAIT 0 k tr).res = .ok () := by
        rw [hw]
      obtain ⟨m, hm1, hwk, hwtr, st, hst, hfin⟩ :=
        wait_success_shape o i CONTAINER_MAX_WAIT 0 k tr hres
      have hc : wait_items o (i :: rest) k tr =
          wait_items o rest (wait_for_container o i CONTAINER_MAX_WAIT 0 k tr).k
            (wait_for_container o i CONTAINER_MAX_WAIT 0 k tr).tr := by
        rw [wait_items]
        rw [hw]
      rw [hc, hwk, hwtr] at h
      obtain ⟨ms, hlen, hblocks, hk, htr⟩ :=
        ih (k + m) (tr ++ List.replicate m (Req.checkStatus i)) h
      refine ⟨m :: ms, by simp [hlen], ⟨hm1, ⟨st, hst, hfin⟩, hblocks⟩, ?_, ?_⟩
      · rw [hc, hwk, hwtr, hk]
        simp [List.sum_cons]
        omega
      · rw [hc, hwk, hwtr, htr]
        simp [check_blocks, List.zipWith_cons_cons, List.flatten_cons, List.append_assoc]

/-- C6: a successful carousel publish with N slide URLs (2 ≤ N ≤ 10)
issues exactly N item-container creates in slide order, then N
item-status wait blocks (each polling only that item's id, at least once,
ending on a FINISHED read), then exactly one aggregating carousel create
referencing all N item ids plus the caption, then one wait block on the
aggregating container, then exactly one publish call — and nothing else. -/
theorem C6_carousel_call_sequence (o : Oracle) (urls : List String) (cap : String)
    (mid : String) (h2 : 2 ≤ urls.length) (h10 : urls.length ≤ 10)
    (hres : (publish_carousel o urls cap 0 []).res = .ok mid) :
    ∃ (ids : List String) (ms : List Nat) (cid : String) (mC : Nat),
      ids.length = urls.length ∧ ms.length = urls.length ∧
      wait_blocks o ids ms urls.length ∧ 1 ≤ mC ∧
      (publish_carousel o urls cap 0 []).tr =
        urls.map Req.createCarouselItem ++ check_blocks ids ms ++
        [Req.createCarousel ids cap] ++
        List.replicate mC (Req.checkStatus cid) ++ [Req.publishMedia cid] := by
  cases hitems : (create_items o urls 0 []).res with
  | error e =>
    have hc : publish_carousel o urls cap 0 [] =
        ⟨.error e, (create_items o urls 0 []).k, (create_items o urls 0 []).tr⟩ := by
      simp only [publish_carousel, hitems]
    rw [hc] at hres
    simp at hres
  | ok ids =>
    obtain ⟨hik, hitr, hilen⟩ := create_items_ok_shape o urls 0 [] ids hitems
    have hifull : create_items o urls 0 [] =
        ⟨.ok ids, urls.length, urls.map Req.createCarouselItem⟩ := by
      refine StepResult.eq_mk _ _ _ _ hitems ?_ ?_
      · rw [hik]
        omega
      · rw [hitr]
        simp
    cases hws : (wait_items o ids urls.length (urls.map Req.createCarouselItem)).res with
    | error e =>
      have hc : publish_carousel o urls cap 0 [] =
          ⟨.error e, (wait_items o ids urls.length (urls.map Req.createCarouselItem)).k,
            (wait_items o ids urls.length (urls.map Req.createCarouselItem)).tr⟩ := by
        simp only [publish_carousel, hifull, hws]
      rw [hc] at hres
      simp at hres
    | ok u0 =>
      cases u0
      have hres2 : (wait_items o ids urls.length (urls.map Req.createCarouselItem)).res =
          .ok () := hws
      obtain ⟨ms, hmlen, hblocks, hwk, hwtr⟩ :=
        wait_items_ok_shape o ids urls.length (urls.map Req.createCarouselItem) hres2
      have hwfull : wait_items o ids urls.length (urls.map Req.createCarouselItem) =
          ⟨.ok (), urls.length + ms.sum,
            urls.map Req.createCarouselItem ++ check_blocks ids ms⟩ :=
        StepResult.eq_mk _ _ _ _ hres2 hwk hwtr
      cases hcc : o.resp (urls.length + ms.sum) with
      | error e =>
        have hc : publish_carousel o urls cap 0 [] =
            ⟨.error e, urls.length + ms.sum + 1,
              urls.map Req.createCarouselItem ++ check_blocks ids ms ++
                [Req.createCarousel ids cap]⟩ := by
          simp only [publish_carousel, hifull, hwfull, callId, hcc]
        rw [hc] at hres
        simp at hres
      | ok cid =>
        cases hw2 : (wait_for_container o cid CONTAINER_MAX_WAIT 0
            (urls.length + ms.sum + 1)
            (urls.map Req.createCarouselItem ++ check_blocks ids ms ++
              [Req.createCarousel ids cap])).res with
        | error e =>
          have hc : publish_carousel o urls cap 0 [] =
              ⟨.error e,
                (wait_for_container o cid CONTAINER_MAX_WAIT 0 (urls.length + ms.sum + 1)
                  (urls.map Req.createCarouselItem ++ check_blocks ids ms ++
                    [Req.createCarousel ids cap])).k,
                (wait_for_container o cid CONTAINER_MAX_WAIT 0 (urls.length + ms.sum + 1)
                  (urls.map Req.createCarouselItem ++ check_blocks ids ms ++
                    [Req.createCarousel ids cap])).tr⟩ := by
            simp only [publish_carousel, hifull, hwfull, callId, hcc, hw2]
          rw [hc] at hres
          simp at hres
        | ok u1 =>
          cases u1
          have hres3 : (wait_for_container o cid CONTAINER_MAX_WAIT 0
              (urls.length + ms.sum + 1)
              (urls.map Req.createCarouselItem ++ check_blocks ids ms ++
                [Req.createCarousel ids cap])).res = .ok () := hw2
          obtain ⟨mC, hmC1, hw2k, hw2tr, st2, hst2, hfin2⟩ :=
            wait_success_shape o cid CONTAINER_MAX_WAIT 0 (urls.length + ms.sum + 1)
              (urls.map Req.createCarouselItem ++ check_blocks ids ms ++
                [Req.createCarousel ids cap]) hres3
          have hw2full : wait_for_container o cid CONTAINER_MAX_WAIT 0
              (urls.length + ms.sum + 1)
              (urls.map Req.createCarouselItem ++ check_blocks ids ms ++
                [Req.createCarousel ids cap]) =
              ⟨.ok (), urls.length + ms.sum + 1 + mC,
                urls.map Req.createCarouselItem ++ check_blocks ids ms ++
                  [Req.createCarousel ids cap] ++
                  List.replicate mC (Req.checkStatus cid)⟩ :=
            StepResult.eq_mk _ _ _ _ hres3 hw2k hw2tr
          have hc : publish_carousel o urls cap 0 [] =
              ⟨o.resp (urls.length + ms.sum + 1 + mC),
                urls.length + ms.sum + 1 + mC + 1,
                urls.map Req.createCarouselItem ++ check_blocks ids ms ++
                  [Req.createCarousel ids cap] ++
                  List.replicate mC (Req.checkStatus cid) ++ [Req.publishMedia cid]⟩ := by
            simp only [publish_carousel, hifull, hwfull, callId, hcc, hw2full]
          refine ⟨ids, ms, cid, mC, hilen, hmlen.trans hilen, hblocks, hmC1, ?_⟩
          rw [hc]

/-- Witness for C6: a concrete 2-slide carousel publish against a remote
whose containers finish on the first poll. -/
theorem C6_carousel_call_sequence_witness :
    ∃ (ids : List String) (ms : List Nat) (cid : String) (mC : Nat),
      ids.length = 2 ∧ ms.length = 2 ∧ wait_blocks oracleFin ids ms 2 ∧ 1 ≤ mC ∧
      (publish_carousel oracleFin ["a", "b"] "cap" 0 []).tr =
        ["a", "b"].map Req.createCarouselItem ++ check_blocks ids ms ++
        [Req.createCarousel ids "cap"] ++
        List.replicate mC (Req.checkStatus cid) ++ [Req.publishMedia cid] := by
  have hresp : ∀ k, oracleFin.resp k = .ok "c1" := fun _ => rfl
  have hwf : ∀ (k : Nat) (tr : List Req),
      wait_for_container oracleFin "c1" CONTAINER_MAX_WAIT 0 k tr =
        ⟨.ok (), k + 1, tr ++ [Req.checkStatus "c1"]⟩ := by
    intro k tr
    have h := wait_finished oracleFin "c1" CONTAINER_MAX_WAIT 0 k tr
      ⟨some "FINISHED", none⟩ (fun i hi => absurd hi (by omega))
      (by norm_num [CONTAINER_MAX_WAIT]) rfl rfl
    simpa using h
  have hci : create_items oracleFin ["a", "b"] 0 [] =
      ⟨.ok ["c1", "c1"], 2, [Req.createCarouselItem "a", Req.createCarouselItem "b"]⟩ := rfl
  have hwi : wait_items oracleFin ["c1", "c1"] 2
      [Req.createCarouselItem "a", Req.createCarouselItem "b"] =
      ⟨.ok (), 4, [Req.createCarouselItem "a", Req.createCarouselItem "b",
        Req.checkStatus "c1", Req.checkStatus "c1"]⟩ := by
    simp only [wait_items, hwf]
    rfl
  have hcar : (publish_carousel oracleFin ["a", "b"] "cap" 0 []).res = .ok "c1" := by
    have hfull : publish_carousel oracleFin ["a", "b"] "cap" 0 [] =
        ⟨.ok "c1", 7, [Req.createCarouselItem "a", Req.createCarouselItem "b",
          Req.checkStatus "c1", Req.checkStatus "c1",
          Req.createCarousel ["c1", "c1"] "cap", Req.checkStatus "c1",
          Req.publishMedia "c1"]⟩ := by
      simp only [publish_carousel, hci, hwi, callId, hresp, hwf]
      rfl
    rw [hfull]
  have h := C6_carousel_call_sequence oracleFin ["a", "b"] "cap" "c1"
    (by norm_num) (by norm_num) hcar
  simpa using h

/-- C5 counterexample: `publish_content` has NO story dispatch path.  The
`ContentType` enum has exactly the four members IMAGE, VIDEO, CAROUSEL,
REEL; for every one of them (and for an unset tag) the dispatch goes to
the image, video, carousel path or a local error, and no story container
is ever created — refuting the claim that a story publishing path is
selected from the media-shape tag. -/
theorem C5_counterexample :
    publish_content oracleFin ⟨"cap", none, some "u", some ContentType.IMAGE⟩ 0 [] =
      publish_image oracleFin "u" "cap" 0 []
    ∧ publish_content oracleFin ⟨"cap", none, some "u", some ContentType.VIDEO⟩ 0 [] =
      publish_video oracleFin "u" "cap" "REELS" 0 []
    ∧ publish_content oracleFin ⟨"cap", none, some "u", some ContentType.REEL⟩ 0 [] =
      publish_video oracleFin "u" "cap" "REELS" 0 []
    ∧ publish_content oracleFin ⟨"cap", none, some "a|b", some ContentType.CAROUSEL⟩ 0 [] =
      publish_carousel oracleFin ["a", "b"] "cap" 0 []
    ∧ publish_content oracleFin ⟨"cap", none, some "u", none⟩ 0 [] =
      ⟨.error (.publishError "Unsupported media type: None"), 0, []⟩
    ∧ count_story_creates
        (publish_content oracleTransient ⟨"cap", none, some "u", some ContentType.IMAGE⟩ 0 []).tr = 0
    ∧ count_story_creates
        (publish_content oracleTransient ⟨"cap", none, some "u", some ContentType.VIDEO⟩ 0 []).tr = 0
    ∧ count_story_creates
        (publish_content oracleTransient ⟨"cap", none, some "u", some ContentType.REEL⟩ 0 []).tr = 0
    ∧ count_story_creates
        (publish_content oracleTransient ⟨"cap", none, some "a|b", some ContentType.CAROUSEL⟩ 0 []).tr = 0
    ∧ count_story_creates
        (publish_content oracleTransient ⟨"cap", none, some "u", none⟩ 0 []).tr = 0 := by
  refine ⟨rfl, rfl, rfl, ?_, rfl, rfl, rfl, rfl, ?_, rfl⟩
  · show publish_content oracleFin ⟨"cap", none, some "a|b", some ContentType.CAROUSEL⟩ 0 [] =
      publish_carousel oracleFin ["a", "b"] "cap" 0 []
    rfl
  · rfl

/-- C5 amended: `publish_content` dispatches purely on the media-shape
tag, to the image path for IMAGE, the video path (with media_type
"REELS") for VIDEO and REEL, and the carousel path (on the
delimiter-split slide URLs) for CAROUSEL; there is no story member in
`ContentType` and no story path.  An unset media URL, an unset tag, or a
carousel URL list empty after splitting raises a local `PublishError`
with no remote call (the trace and call counter are untouched). -/
theorem C5_amended_dispatch :
    (∀ (o : Oracle) (c : Content) (k : Nat) (tr : List Req),
      c.media_url = none →
      publish_content o c k tr =
        ⟨.error (.publishError "Content must have a media URL"), k, tr⟩)
    ∧ (∀ (o : Oracle) (c : Content) (k : Nat) (tr : List Req),
      c.media_url = some "" →
      publish_content o c k tr =
        ⟨.error (.publishError "Content must have a media URL"), k, tr⟩)
    ∧ (∀ (o : Oracle) (c : Content) (k : Nat) (tr : List Req) (u : String),
      c.media_url = some u → u ≠ "" → c.media_type = none →
      publish_content o c k tr =
        ⟨.error (.publishError "Unsupported media type: None"), k, tr⟩)
    ∧ (∀ (o : Oracle) (c : Content) (k : Nat) (tr : List Req) (u : String),
      c.media_url = some u → u ≠ "" → c.media_type = some ContentType.IMAGE →
      publish_content o c k tr = publish_image o u (full_caption c) k tr)
    ∧ (∀ (o : Oracle) (c : Content) (k : Nat) (tr : List Req) (u : String),
      c.media_url = some u → u ≠ "" → c.media_type = some ContentType.VIDEO →
      publish_content o c k tr = publish_video o u (full_caption c) "REELS" k tr)
    ∧ (∀ (o : Oracle) (c : Content) (k : Nat) (tr : List Req) (u : String),
      c.media_url = some u → u ≠ "" → c.media_type = some ContentType.REEL →
      publish_content o c k tr = publish_video o u (full_caption c) "REELS" k tr)
    ∧ (∀ (o : Oracle) (c : Content) (k : Nat) (tr : List Req) (u : String),
      c.media_url = some u → u ≠ "" → c.media_type = some ContentType.CAROUSEL →
      carousel_urls u = [] →
      publish_content o c k tr =
        ⟨.error (.publishError "Carousel content has no image URLs in media_url"), k, tr⟩)
    ∧ (∀ (o : Oracle) (c : Content) (k : Nat) (tr : List Req) (u : String),
      c.media_url = some u → u ≠ "" → c.media_type = some ContentType.CAROUSEL →
      carousel_urls u ≠ [] →
      publish_content o c k tr = publish_carousel o (carousel_urls u) (full_caption c) k tr) := by
  refine ⟨?_, ?_, ?_, ?_, ?_, ?_, ?_, ?_⟩
  · intro o c k tr h
    simp only [publish_content, h]
  · intro o c k tr h
    simp only [publish_content, h]
    simp
  · intro o c k tr u hu hne ht
    simp only [publish_content, hu, ht]
    rw [if_neg hne]
  · intro o c k tr u hu hne ht
    simp only [publish_content, hu, ht]
    rw [if_neg hne]
  · intro o c k tr u hu hne ht
    simp only [publish_content, hu, ht]
    rw [if_neg hne]
  · intro o c k tr u hu hne ht
    simp only [publish_content, hu, ht]
    rw [if_neg hne]
  · intro o c k tr u hu hne ht hurls
    simp only [publish_content, hu, ht]
    rw [if_neg hne]
    simp only [hurls]
    simp
  · intro o c k tr u hu hne ht hurls
    simp only [publish_content, hu, ht]
    rw [if_neg hne]
    rw [if_neg hurls]

/-- Witness for C5 amended: the image conjunct at a concrete content row. -/
theorem C5_amended_dispatch_witness :
    publish_content oracleFin ⟨"cap", some "tags", some "u", some ContentType.IMAGE⟩ 0 [] =
      publish_image oracleFin "u"
        (full_caption ⟨"cap", some "tags", some "u", some ContentType.IMAGE⟩) 0 [] := by
  exact C5_amended_dispatch.2.2.2.1 oracleFin
    ⟨"cap", some "tags", some "u", some ContentType.IMAGE⟩ 0 [] "u" rfl (by decide) rfl

/-- C7: a scheduler-callback firing on a missing ScheduledPost row, or on
a post whose status is anything other than PENDING, makes no publish
attempt, schedules nothing, raises nothing, and leaves the entire
database (post, content, account flags) exactly as it was. -/
theorem C7_refire_safety (db : SchedDB) (pub : Except String String) (now : DT)
    (h : db.post = none ∨ ∀ p, db.post = some p → p.status ≠ ScheduleStatus.PENDING) :
    publish_scheduled_post db pub now = (db, [], CallbackOutcome.returned) := by
  cases hp : db.post with
  | none => simp [publish_scheduled_post, hp]
  | some p =>
    rcases h with h | h
    · rw [hp] at h
      cases h
    · have hne := h p hp
      simp [publish_scheduled_post, hp, hne]

/-- Witness for C7: a job firing on an already-published post is a no-op. -/
theorem C7_refire_safety_witness :
    publish_scheduled_post
      ⟨some ⟨ScheduleStatus.PUBLISHED, 0, 3, none, none⟩,
        ⟨ContentStatus.PUBLISHED, some "m1"⟩, true, false⟩
      (.ok "m2") ⟨12, 30⟩ =
      (⟨some ⟨ScheduleStatus.PUBLISHED, 0, 3, none, none⟩,
        ⟨ContentStatus.PUBLISHED, some "m1"⟩, true, false⟩,
        [], CallbackOutcome.returned) := by
  exact C7_refire_safety _ _ _ (Or.inr (fun p hp => by cases hp; decide))

/-- C2: evaluation at the failing input.  A pending post
(retry_count 0, max_retries 3) whose publish raises, with the callback
firing at 12:58 wall-clock: `retry_time.replace(minute=58+5)` raises
`ValueError`, which escapes the handler before any commit — the post
stays PROCESSING with retry_count 0, no error text is recorded and no
retry job is scheduled, instead of ending PENDING with retry_count 1 and
a job 5 minutes later as the claim states. -/
theorem C2_scheduler_retry_eval :
    publish_scheduled_post
      ⟨some ⟨ScheduleStatus.PENDING, 0, 3, none, none⟩,
        ⟨ContentStatus.READY, none⟩, true, false⟩
      (.error "boom") ⟨12, 58⟩ =
      (⟨some ⟨ScheduleStatus.PROCESSING, 0, 3, none, none⟩,
        ⟨ContentStatus.READY, none⟩, true, false⟩,
        [SAction.publishAttempt],
        .raised (.valueError "minute must be in 0..59")) := by
  rfl

/-- One step of the per-comment loop either leaves the lead count for a
comment id unchanged, or creates the first lead for it (only possible
when none existed). -/
lemma process_comment_step_counts (sendOk : String → Bool) (t : Trigger)
    (nowIso : String) (st : List LeadRec × List LAction × Nat) (c : Comment)
    (x : String) :
    (lead_count (process_comment sendOk t nowIso st c).1 x = lead_count st.1 x)
    ∨ (lead_count st.1 x = 0 ∧
        lead_count (process_comment sendOk t nowIso st c).1 x = 1) := by
  have hzero : ¬ ((st.1.any (fun l => l.comment_id = c.id)) = true) →
      lead_count st.1 c.id = 0 := by
    intro hany
    unfold lead_count
    rw [List.countP_eq_zero]
    intro l hl
    simp only [decide_eq_true_eq]
    intro hlx
    exact hany (List.any_eq_true.mpr ⟨l, hl, by simp [hlx]⟩)
  unfold process_comment
  split_ifs with h1 h2 h3 h4
  · left; rfl
  · left; rfl
  · left; rfl
  · by_cases hcx : c.id = x
    · right
      have h0 : lead_count st.1 x = 0 := by
        rw [← hcx]
        exact hzero h3
      refine ⟨h0, ?_⟩
      unfold lead_count at h0 ⊢
      simp [List.countP_append, h0, List.countP_cons, hcx]
    · left
      unfold lead_count
      simp [List.countP_append, List.countP_cons, hcx]
  · left; rfl

/-- When a lead for the comment id already exists, one step never adds a
lead for it and never sends a private reply addressed to it. -/
lemma process_comment_step_existing (sendOk : String → Bool) (t : Trigger)
    (nowIso : String) (st : List LeadRec × List LAction × Nat) (c : Comment)
    (x : String) (hx : 1 ≤ lead_count st.1 x) :
    lead_count (process_comment sendOk t nowIso st c).1 x = lead_count st.1 x
    ∧ reply_count (process_comment sendOk t nowIso st c).2.1 x =
      reply_count st.2.1 x := by
  have hkey : ¬ ((st.1.any (fun l => l.comment_id = c.id)) = true) → c.id ≠ x := by
    intro hany hcx
    subst hcx
    unfold lead_count at hx
    have hpos : 0 < List.countP (fun l => decide (l.comment_id = c.id)) st.1 := by omega
    obtain ⟨l, hl, hp⟩ := List.countP_pos.mp hpos
    exact hany (List.any_eq_true.mpr ⟨l, hl, hp⟩)
  unfold process_comment
  split_ifs with h1 h2 h3 h4
  · exact ⟨rfl, rfl⟩
  · exact ⟨rfl, rfl⟩
  · constructor
    · rfl
    · unfold reply_count
      simp [List.countP_append, List.countP_cons, hkey h3]
  · constructor
    · unfold lead_count
      simp [List.countP_append, List.countP_cons, hkey h3]
    · unfold reply_count
      simp [List.countP_append, List.countP_cons, hkey h3]
  · exact ⟨rfl, rfl⟩

/-- The whole batch preserves "at most one lead per comment id". -/
lemma fold_lead_count_le_one (sendOk : String → Bool) (t : Trigger) (nowIso : String)
    (x : String) :
    ∀ (comments : List Comment) (st : List LeadRec × List LAction × Nat),
    lead_count st.1 x ≤ 1 →
    lead_count (comments.foldl (process_comment sendOk t nowIso) st).1 x ≤ 1 := by
  intro comments
  induction comments with
  | nil =>
    intro st h
    simpa using h
  | cons c rest ih =>
    intro st h
    rw [List.foldl_cons]
    apply ih
    rcases process_comment_step_counts sendOk t nowIso st c x with h1 | ⟨h0, h1⟩
    · rw [h1]
      exact h
    · rw [h1]

/-- A batch processed from a state that already holds a lead for a comment
id adds no lead for it and sends no private reply addressed to it. -/
lemma fold_lead_count_existing (sendOk : String → Bool) (t : Trigger) (nowIso : String)
    (x : String) :
    ∀ (comments : List Comment) (st : List LeadRec × List LAction × Nat),
    1 ≤ lead_count st.1 x →
    lead_count (comments.foldl (process_comment sendOk t nowIso) st).1 x =
      lead_count st.1 x
    ∧ reply_count (comments.foldl (process_comment sendOk t nowIso) st).2.1 x =
      reply_count st.2.1 x := by
  intro comments
  induction comments with
  | nil =>
    intro st h
    exact ⟨rfl, rfl⟩
  | cons c rest ih =>
    intro st h
    rw [List.foldl_cons]
    obtain ⟨hl, hr⟩ := process_comment_step_existing sendOk t nowIso st c x h
    obtain ⟨ihl, ihr⟩ := ih (process_comment sendOk t nowIso st c) (by rw [hl]; exact h)
    exact ⟨ihl.trans hl, ihr.trans hr⟩

/-- `_process_trigger` with a successful fetch, written out. -/
lemma process_trigger_ok (sendOk : String → Bool) (t : Trigger)
    (comments : List Comment) (leads : List LeadRec) (now : Nat) (nowIso : String) :
    process_trigger sendOk t (.ok comments) leads now nowIso =
      { leads := (comments.foldl (process_comment sendOk t nowIso) (leads, [], 0)).1,
        cursor := some now,
        acts := (comments.foldl (process_comment sendOk t nowIso) (leads, [], 0)).2.1,
        new_leads := (comments.foldl (process_comment sendOk t nowIso) (leads, [], 0)).2.2 } :=
  rfl

/-- C4: at most one Lead is ever created per comment id, even when the
same comment appears twice in a batch or in two overlapping polls — the
dedup lookup precedes the side-effecting private reply, so a comment
whose id already has a Lead is skipped with no reply sent and no lead
added. -/
theorem C4_comment_dedup (sendOk : String → Bool) (t : Trigger)
    (comments : List Comment) (leads : List LeadRec) (now : Nat) (nowIso : String)
    (x : String) :
    (lead_count leads x ≤ 1 →
      lead_count (process_trigger sendOk t (.ok comments) leads now nowIso).leads x ≤ 1)
    ∧ (1 ≤ lead_count leads x →
      lead_count (process_trigger sendOk t (.ok comments) leads now nowIso).leads x =
        lead_count leads x
      ∧ reply_count (process_trigger sendOk t (.ok comments) leads now nowIso).acts x = 0) := by
  constructor
  · intro h
    rw [process_trigger_ok]
    exact fold_lead_count_le_one sendOk t nowIso x comments (leads, [], 0) h
  · intro h
    rw [process_trigger_ok]
    obtain ⟨hl, hr⟩ :=
      fold_lead_count_existing sendOk t nowIso x comments (leads, [], 0) h
    exact ⟨hl, hr⟩

/-- Witness for C4: a batch containing the same matching comment twice,
against an empty lead table, ends with at most one lead for that id. -/
theorem C4_comment_dedup_witness :
    lead_count (process_trigger (fun _ => true) ⟨"kw", "msg", none⟩
      (.ok [⟨"c9", "plz kw", "u1", "ig1", 5⟩, ⟨"c9", "plz kw", "u1", "ig1", 5⟩])
      [] 10 "t10").leads "c9" ≤ 1 := by
  exact (C4_comment_dedup (fun _ => true) ⟨"kw", "msg", none⟩
    [⟨"c9", "plz kw", "u1", "ig1", 5⟩, ⟨"c9", "plz kw", "u1", "ig1", 5⟩]
    [] 10 "t10" "c9").1 (by simp [lead_count])

/-- C8: per-lead conversation updates are all-or-nothing.  With the
lead's thread located and the new inbound messages extracted: if AI reply
generation fails the stored lead is untouched and no message is sent; if
the send fails the stored lead is untouched (the appended inbound
messages are discarded with it); only after a successful send is the full
history — old entries, new inbound messages, assistant reply — persisted
and the status set to REPLIED. -/
theorem C8_conversation_all_or_nothing (gen : List HistEntry → Except String String)
    (sendOk : Bool) (nowIso : String) (lead : LeadRec)
    (conversations : List (List Msg)) (thread : List Msg)
    (hthread : find_thread conversations lead.commenter_ig_user_id = some thread) :
    (∀ e, gen (lead.conversation_history ++
        (extract_new_user_messages thread lead.commenter_ig_user_id
          (last_message_timestamp lead.conversation_history)).map
          (fun m => { role := "user", message := m.text, timestamp := m.timestamp })) =
        .error e →
      process_lead_conversation gen sendOk nowIso lead conversations = ⟨lead, [], false⟩)
    ∧ (∀ reply,
      extract_new_user_messages thread lead.commenter_ig_user_id
        (last_message_timestamp lead.conversation_history) ≠ [] →
      gen (lead.conversation_history ++
        (extract_new_user_messages thread lead.commenter_ig_user_id
          (last_message_timestamp lead.conversation_history)).map
          (fun m => { role := "user", message := m.text, timestamp := m.timestamp })) =
        .ok reply →
      sendOk = false →
      process_lead_conversation gen sendOk nowIso lead conversations =
        ⟨lead, [LAction.sendMessage lead.commenter_ig_user_id reply], false⟩)
    ∧ (∀ reply,
      extract_new_user_messages thread lead.commenter_ig_user_id
        (last_message_timestamp lead.conversation_history) ≠ [] →
      gen (lead.conversation_history ++
        (extract_new_user_messages thread lead.commenter_ig_user_id
          (last_message_timestamp lead.conversation_history)).map
          (fun m => { role := "user", message := m.text, timestamp := m.timestamp })) =
        .ok reply →
      sendOk = true →
      process_lead_conversation gen sendOk nowIso lead conversations =
        ⟨{ lead with
            conversation_history := lead.conversation_history ++
              (extract_new_user_messages thread lead.commenter_ig_user_id
                (last_message_timestamp lead.conversation_history)).map
                (fun m => { role := "user", message := m.text, timestamp := m.timestamp }) ++
              [{ role := "assistant", message := reply, timestamp := nowIso }],
            status := LeadStatus.REPLIED },
          [LAction.sendMessage lead.commenter_ig_user_id reply], true⟩) := by
  refine ⟨?_, ?_, ?_⟩
  · intro e hgen
    by_cases hm : extract_new_user_messages thread lead.commenter_ig_user_id
        (last_message_timestamp lead.conversation_history) = []
    · simp only [process_lead_conversation, hthread, hm]
      simp
    · simp only [process_lead_conversation, hthread]
      rw [if_neg hm, hgen]
  · intro reply hm hgen hs
    simp only [process_lead_conversation, hthread]
    rw [if_neg hm, hgen, hs]
    simp
  · intro reply hm hgen hs
    simp only [process_lead_conversation, hthread]
    rw [if_neg hm, hgen, hs]
    simp

/-- Witness for C8: a failed send leaves the stored lead untouched. -/
theorem C8_conversation_all_or_nothing_witness :
    process_lead_conversation (fun _ => .ok "re") false "t9"
      ⟨"c1", "ig1", "u1", [⟨"assistant", "hi", "t1"⟩], true, LeadStatus.CONTACTED⟩
      [[⟨"ig1", "yo", "t2"⟩]] =
      ⟨⟨"c1", "ig1", "u1", [⟨"assistant", "hi", "t1"⟩], true, LeadStatus.CONTACTED⟩,
        [LAction.sendMessage "ig1" "re"], false⟩ := by
  have hext : extract_new_user_messages [⟨"ig1", "yo", "t2"⟩] "ig1" (some "t1") =
      ([⟨"yo", "t2"⟩] : List NewMsg).mergeSort (fun a b => str_le a.timestamp b.timestamp) := rfl
  rw [List.mergeSort_singleton] at hext
  exact (C8_conversation_all_or_nothing (fun _ => .ok "re") false "t9"
    ⟨"c1", "ig1", "u1", [⟨"assistant", "hi", "t1"⟩], true, LeadStatus.CONTACTED⟩
    [[⟨"ig1", "yo", "t2"⟩]] [⟨"ig1", "yo", "t2"⟩] rfl).2.1 "re"
    (by
      show extract_new_user_messages [⟨"ig1", "yo", "t2"⟩] "ig1" (some "t1") ≠ []
      rw [hext]
      simp) rfl rfl

/-- Lexicographic comparison is total. -/
lemma le_chars_total : ∀ a b : List Char, (le_chars a b || le_chars b a) = true := by
  intro a
  induction a with
  | nil =>
    intro b
    simp [le_chars]
  | cons x xs ih =>
    intro b
    cases b with
    | nil => simp [le_chars]
    | cons y ys =>
      by_cases hxy : x = y
      · subst hxy
        simpa [le_chars] using ih ys
      · have hyx : ¬ y = x := fun h => hxy h.symm
        simp only [le_chars, if_neg hxy, if_neg hyx]
        rcases lt_or_gt_of_ne (show x ≠ y from hxy) with h | h
        · simp [h]
        · simp [h]

/-- Lexicographic comparison is transitive. -/
lemma le_chars_trans : ∀ a b c : List Char,
    le_chars a b = true → le_chars b c = true → le_chars a c = true := by
  intro a
  induction a with
  | nil =>
    intro b c _ _
    rfl
  | cons x xs ih =>
    intro b c hab hbc
    cases b with
    | nil => simp [le_chars] at hab
    | cons y ys =>
      cases c with
      | nil => simp [le_chars] at hbc
      | cons z zs =>
        by_cases hxy : x = y <;> by_cases hyz : y = z
        · subst hxy
          subst hyz
          simp only [le_chars, if_pos rfl] at hab hbc ⊢
          exact ih ys zs hab hbc
        · subst hxy
          simp only [le_chars, if_pos rfl, if_neg hyz] at hbc ⊢
          exact hbc
        · subst hyz
          simp only [le_chars, if_neg hxy] at hab ⊢
          exact hab
        · simp only [le_chars, if_neg hxy, if_neg hyz, decide_eq_true_eq] at hab hbc
          have hxz : x < z := lt_trans hab hbc
          have hne : ¬ x = z := ne_of_lt hxz
          simp [le_chars, if_neg hne, hxz]

/-- C9 counterexample: a history whose last entry carries an empty
timestamp (possible when an inbound message arrived without a
created_time) makes the `if since_timestamp` truthiness check skip the
filter entirely: a message whose timestamp is NOT strictly greater than T
(both are "") is still returned as new, while the claim's selection
returns nothing. -/
theorem C9_counterexample :
    extract_new_user_messages [⟨"u1", "hello", ""⟩] "u1" (some "") = [⟨"hello", ""⟩]
    ∧ claimed_new_user_messages [⟨"u1", "hello", ""⟩] "u1" (some "") = [] := by
  constructor
  · have h : extract_new_user_messages [⟨"u1", "hello", ""⟩] "u1" (some "") =
        ([⟨"hello", ""⟩] : List NewMsg).mergeSort
          (fun a b => str_le a.timestamp b.timestamp) := rfl
    rw [h, List.mergeSort_singleton]
  · have h : claimed_new_user_messages [⟨"u1", "hello", ""⟩] "u1" (some "") =
        ([] : List NewMsg).mergeSort (fun a b => str_le a.timestamp b.timestamp) := rfl
    rw [h, List.mergeSort_nil]

/-- C9 amended: `_extract_new_user_messages` returns exactly the thread's
messages authored by the lead with timestamp strictly greater than the
stored history's last timestamp, sorted ascending — EXCEPT that an empty
last timestamp is treated like an empty history (every message from the
user counts as new); an empty history yields all the user's messages; the
last history timestamp is the timestamp of the final entry; and the
output is always sorted ascending by timestamp. -/
theorem C9_amended_extract (thread : List Msg) (ig : String) :
    (extract_new_user_messages thread ig none = claimed_new_user_messages thread ig none)
    ∧ (∀ t, t ≠ "" →
      extract_new_user_messages thread ig (some t) =
        claimed_new_user_messages thread ig (some t))
    ∧ (extract_new_user_messages thread ig (some "") =
        claimed_new_user_messages thread ig none)
    ∧ (∀ since, List.Pairwise (fun a b : NewMsg => str_le a.timestamp b.timestamp = true)
        (extract_new_user_messages thread ig since))
    ∧ last_message_timestamp [] = none
    ∧ (∀ (hist : List HistEntry) (e : HistEntry),
        last_message_timestamp (hist ++ [e]) = some e.timestamp) := by
  refine ⟨?_, ?_, ?_, ?_, rfl, ?_⟩
  · rfl
  · intro t ht
    unfold extract_new_user_messages claimed_new_user_messages
    have hdec : truthy (some t) = true := by simp [truthy, ht]
    have hfil : thread.filter (fun m =>
        decide (m.from_id = ig) &&
        !(truthy (some t) && str_le m.created_time ((some t).getD ""))) =
        thread.filter (fun m =>
        decide (m.from_id = ig) && str_lt t m.created_time) := by
      apply List.filter_congr
      intro m _
      rw [hdec]
      rfl
    rw [hfil]
  · rfl
  · intro since
    unfold extract_new_user_messages
    apply List.sorted_mergeSort
    · intro a b c hab hbc
      exact le_chars_trans _ _ _ hab hbc
    · intro a b
      exact le_chars_total _ _
  · intro hist e
    unfold last_message_timestamp
    rw [List.getLast?_concat]
    rfl

/-- Witness for C9 amended: a non-empty cursor timestamp, concrete
thread. -/
theorem C9_amended_extract_witness :
    extract_new_user_messages [⟨"u1", "hi", "t2"⟩] "u1" (some "t1") =
      claimed_new_user_messages [⟨"u1", "hi", "t2"⟩] "u1" (some "t1") := by
  exact (C9_amended_extract [⟨"u1", "hi", "t2"⟩] "u1").2.1 "t1" (by decide)

/-- A comment with a different id never changes the lead count for `x`. -/
lemma process_comment_step_other (sendOk : String → Bool) (t : Trigger)
    (nowIso : String) (st : List LeadRec × List LAction × Nat) (c : Comment)
    (x : String) (hcx : c.id ≠ x) :
    lead_count (process_comment sendOk t nowIso st c).1 x = lead_count st.1 x := by
  unfold process_comment
  split_ifs with h1 h2 h3 h4
  · rfl
  · rfl
  · rfl
  · unfold lead_count
    simp [List.countP_append, List.countP_cons, hcx]
  · rfl

/-- A batch containing no comment with id `x` creates no lead for `x`. -/
lemma fold_lead_count_no_comment (sendOk : String → Bool) (t : Trigger)
    (nowIso : String) (x : String) :
    ∀ (comments : List Comment) (st : List LeadRec × List LAction × Nat),
    (∀ c ∈ comments, c.id ≠ x) →
    lead_count (comments.foldl (process_comment sendOk t nowIso) st).1 x =
      lead_count st.1 x := by
  intro comments
  induction comments with
  | nil =>
    intro st _
    rfl
  | cons c rest ih =>
    intro st hall
    rw [List.foldl_cons]
    rw [ih (process_comment sendOk t nowIso st c) (fun d hd => hall d (by simp [hd]))]
    exact process_comment_step_other sendOk t nowIso st c x (hall c (by simp))

/-- Once the cursor has advanced past a comment's creation time, no later
poll (at nondecreasing wall-clock times) ever creates a lead for it. -/
lemma poll_many_no_lead (sendOk : String → Bool) (all : List Comment) (t : Trigger)
    (x : String) (t1 : Nat)
    (hall : ∀ c ∈ all, c.id = x → c.ts < t1) :
    ∀ (ps : List PollSpec) (leads : List LeadRec) (τ : Nat),
    (∀ p ∈ ps, t1 ≤ p.now) → t1 ≤ τ → lead_count leads x = 0 →
    lead_count
      (poll_many sendOk all { t with last_polled_at := some τ } leads ps).2 x = 0 := by
  intro ps
  induction ps with
  | nil =>
    intro leads τ _ _ h0
    simpa [poll_many] using h0
  | cons p rest ih =>
    intro leads τ hps hτ h0
    have hstep : poll_many sendOk all { t with last_polled_at := some τ } leads (p :: rest) =
        poll_many sendOk all
          (poll_once sendOk all { t with last_polled_at := some τ } leads p).1
          (poll_once sendOk all { t with last_polled_at := some τ } leads p).2 rest := rfl
    rw [hstep]
    by_cases hok : p.ok = true
    · have h1 : poll_once sendOk all { t with last_polled_at := some τ } leads p =
          ({ t with last_polled_at := some p.now },
            ((server_comments all (some τ)).foldl
              (process_comment sendOk { t with last_polled_at := some τ } p.nowIso)
              (leads, [], 0)).1) := by
        unfold poll_once
        rw [if_pos hok]
        rfl
      rw [h1]
      apply ih _ p.now (fun q hq => hps q (by simp [hq])) (hps p (by simp))
      rw [fold_lead_count_no_comment]
      · exact h0
      · intro c hc hcx
        have hmem : c ∈ all ∧ τ ≤ c.ts := by
          have := hc
          unfold server_comments at this
          simp only [List.mem_filter, decide_eq_true_eq] at this
          exact this
        have := hall c hmem.1 hcx
        omega
    · have h1 : poll_once sendOk all { t with last_polled_at := some τ } leads p =
          ({ t with last_polled_at := some p.now }, leads) := by
        unfold poll_once
        rw [if_neg hok]
        rfl
      rw [h1]
      exact ih leads p.now (fun q hq => hps q (by simp [hq])) (hps p (by simp)) h0

/-- C10: a failed remote comment fetch is swallowed — `get_post_comments`
returns an empty list instead of raising; `_process_trigger` then treats
the poll as an empty batch (no sends, no new leads) yet still advances
the cursor to now; and a comment created before that advanced cursor is
never turned into a lead by any later poll made at that time or later. -/
theorem C10_failed_fetch_cursor_advance :
    (∀ e : String, get_post_comments (.error e) = [])
    ∧ (∀ (sendOk : String → Bool) (t : Trigger) (leads : List LeadRec)
        (now : Nat) (nowIso msg : String),
      process_trigger sendOk t (.error msg) leads now nowIso =
        { leads := leads, cursor := some now, acts := [], new_leads := 0 })
    ∧ (∀ (sendOk : String → Bool) (all : List Comment) (t : Trigger) (x : String)
        (t1 : Nat) (ps : List PollSpec) (leads : List LeadRec),
      (∀ c ∈ all, c.id = x → c.ts < t1) →
      (∀ p ∈ ps, t1 ≤ p.now) →
      lead_count leads x = 0 →
      lead_count
        (poll_many sendOk all { t with last_polled_at := some t1 } leads ps).2 x = 0) := by
  refine ⟨fun _ => rfl, fun _ _ _ _ _ _ => rfl, ?_⟩
  intro sendOk all t x t1 ps leads hall hps h0
  exact poll_many_no_lead sendOk all t x t1 hall ps leads t1 hps (le_refl t1) h0

/-- Witness for C10: a comment created at time 3, dropped by a failed poll
whose cursor advanced to 5, is not picked up by a later successful poll at
time 7. -/
theorem C10_failed_fetch_cursor_advance_witness :
    lead_count (poll_many (fun _ => true) [⟨"cX", "kw here", "u1", "ig1", 3⟩]
      { keyword := "kw", initial_message := "m", last_polled_at := some 5 }
      [] [⟨true, 7, "t7"⟩]).2 "cX" = 0 := by
  have h := C10_failed_fetch_cursor_advance.2.2 (fun _ => true)
    [⟨"cX", "kw here", "u1", "ig1", 3⟩]
    { keyword := "kw", initial_message := "m", last_polled_at := some 5 }
    "cX" 5 [⟨true, 7, "t7"⟩] [] (by decide) (by decide) rfl
  simpa using h
